import Mathlib

/-!
Crash-dump capture and boot-time recovery check of `configs/nucleo-144/src/stm32_bbsram.c`.

A shallow embedding of the board logic of `stm32_bbsram.c`:

* `hardfault_get_desc` and `stm32_bbsram_int`, the boot-time check for a pending
  hard-fault record, as state-passing functions over the storage collaborator;
* `copy_reverse` and `board_crashdump`, the capture of a crash snapshot into the
  static buffer `g_sdata`.

Machine words are natural numbers reduced modulo `2^32` where the C code stores them
in a `uint32_t`.  Memory is a function from a byte address to the 32-bit word stored
there.  The variant embedded is the one with `CONFIG_STM32F7_SAVE_CRASHDUMP`,
`CONFIG_ARCH_INTERRUPTSTACK > 3` and `CONFIG_TASK_NAME_SIZE > 0`.

The capture is embedded twice.  `board_crashdump` reads the register save area and the
stack windows from a memory that is apart from the static snapshot buffer.
`board_crashdump_live` reads them from a memory of which the buffer is a part, so that a
window that overlaps the buffer sees what the capture has written so far; with a memory
apart from the buffer it is `board_crashdump` (`board_crashdump_live_apart`).
-/

set_option autoImplicit false

namespace Bbsram

/-! ## Constants of the file -/

def BBSRAM_PATH : String := "/bbr"
def HARDFAULT_FILENO : Nat := 3
def HARDFAULT_PATH : String := "/bbr3"

/-- The sizes of the files to create, `BSRAM_FILE_SIZES`. -/
def BSRAM_FILE_SIZES : List Int := [256, 256, 1024, -1, 0]

def MAX_FILE_PATH_LENGTH : Nat := 40
def CONFIG_ISTACK_SIZE : Nat := 800
def CONFIG_USTACK_SIZE : Nat := 800

/-- The `O_RDONLY` open mode; only passed through to the collaborator. -/
def O_RDONLY : Nat := 1

def OK : Int := 0

/-- Modelled from the spec: the errno of a slot that cannot be opened ("not found");
`include/errno.h` is not part of the sources, the value is that header's `ENOENT`. -/
def ENOENT : Int := 2

/-- Modelled from the spec: the errno reported when the descriptor query fails;
`include/errno.h` is not part of the sources, the value is that header's `EIO`. -/
def EIO : Int := 5

/-- Modelled from the spec: the "no such device/medium" errno of the save operation;
`include/errno.h` is not part of the sources, the value is that header's `ENXIO`. -/
def ENXIO : Int := 6

/-- Modelled from the spec: the "no space" errno of the save operation;
`include/errno.h` is not part of the sources, the value is that header's `ENOSPC`. -/
def ENOSPC : Int := 28

/-! ### `fault_flags_t` -/

def REGS_PRESENT : Nat := 0x01
def USERSTACK_PRESENT : Nat := 0x02
def INTSTACK_PRESENT : Nat := 0x04
def INVALID_USERSTACK_PTR : Nat := 0x20
def INVALID_INTSTACK_PTR : Nat := 0x40

/-! ## Machine words and memory -/

/-- Conversion to `uint32_t`. -/
def u32 (x : Nat) : Nat := x % 2 ^ 32

/-- Subtraction of two `uint32_t` values, modulo `2^32`. -/
def sub32 (a b : Nat) : Nat := (u32 a + (2 ^ 32 - u32 b)) % 2 ^ 32

/-- Size of a `stack_word_t` in bytes. -/
def WORD : Nat := 4

/-- The word a `stack_word_t *` with value `p` points to. -/
def deref (mem : Nat → Nat) (p : Nat) : Nat := u32 (mem (u32 p))

/-- Pointer arithmetic on a `stack_word_t *` with value `p`: the address `&p[k]`, for an
index `k` of either sign, modulo `2^32`. -/
def ptr_index (p : Nat) (k : Int) : Nat := Int.toNat (((p : Int) + (WORD : Int) * k) % 2 ^ 32)

/-- Pointer arithmetic on a `stack_word_t *`: `p - 1` (the `src--` of `copy_reverse`). -/
def ptr_dec (p : Nat) : Nat := ptr_index p (-1)

/-! ## Data model -/

/-- Stack related data, `_stack_t`. -/
structure _stack_t where
  sp : Nat
  top : Nat
  size : Nat
  deriving DecidableEq, Repr

structure stack_t where
  user : _stack_t
  interrupt : _stack_t
  deriving DecidableEq, Repr

structure info_t where
  /-- What is in the dump -/
  flags : Nat
  /-- Used to validate the dump -/
  current_regs : Nat
  lineno : Int
  pid : Int
  /-- Interrupt register save area, `XCPTCONTEXT_REGS` words -/
  regs : List Nat
  /-- Stack info, the field `stacks` of the source -/
  stacks_ : stack_t
  /-- Task name, `CONFIG_TASK_NAME_SIZE + 1` bytes -/
  name : List Nat
  /-- The last of the chars of `__FILE__`, `MAX_FILE_PATH_LENGTH` bytes -/
  filename : List Nat
  deriving DecidableEq, Repr

structure fullcontext_t where
  info : info_t
  istack : List Nat
  ustack : List Nat
  deriving DecidableEq, Repr

/-- The fields of `struct tcb_s` the capture reads. -/
structure tcb_s where
  pid : Int
  /-- The bytes of the `name` array; the string ends at the first NUL -/
  name : List Nat
  adj_stack_ptr : Nat
  adj_stack_size : Nat

/-- Board and architecture constants the file takes from headers and the linker. -/
structure BoardConfig where
  XCPTCONTEXT_REGS : Nat
  REG_R13 : Nat
  CONFIG_TASK_NAME_SIZE : Nat
  g_idle_topstack : Nat
  CONFIG_IDLETHREAD_STACKSIZE : Nat
  /-- The address `&g_intstackbase` -/
  g_intstackbase : Nat
  CONFIG_ARCH_INTERRUPTSTACK : Nat
  CONFIG_BOARD_RESET_ON_CRASH : Bool

/-- What the capture reads from the running system, the memory read being apart from
the static buffer. -/
structure CrashEnv where
  /-- The pointer `CURRENT_REGS`; `0` is `NULL` -/
  CURRENT_REGS : Nat
  /-- The 32-bit word stored at a byte address -/
  mem : Nat → Nat
  /-- The save operation: file number and record to its result -/
  stm32_bbsram_savepanic : Nat → fullcontext_t → Int

/-- What a capture leaves behind. -/
structure CrashResult where
  /-- The content of `g_sdata` on return -/
  g_sdata : fullcontext_t
  /-- The result of the save operation -/
  rv : Int
  /-- The characters passed to `up_lowputc`, in order, one call each -/
  lowputc : List Char
  /-- Whether `up_systemreset` was called -/
  systemreset : Bool

/-! ### Assignments to the fields of the snapshot

One function for each field `board_crashdump` assigns, `pdump->info.lineno = v` and so
on. -/

namespace fullcontext_t

def set_flags (p : fullcontext_t) (v : Nat) : fullcontext_t :=
  { p with info.flags := v }

def set_current_regs (p : fullcontext_t) (v : Nat) : fullcontext_t :=
  { p with info.current_regs := v }

def set_lineno (p : fullcontext_t) (v : Int) : fullcontext_t :=
  { p with info.lineno := v }

def set_pid (p : fullcontext_t) (v : Int) : fullcontext_t :=
  { p with info.pid := v }

def set_regs (p : fullcontext_t) (v : List Nat) : fullcontext_t :=
  { p with info.regs := v }

def set_name (p : fullcontext_t) (v : List Nat) : fullcontext_t :=
  { p with info.name := v }

def set_filename (p : fullcontext_t) (v : List Nat) : fullcontext_t :=
  { p with info.filename := v }

def set_user_sp (p : fullcontext_t) (v : Nat) : fullcontext_t :=
  { p with info.stacks_.user.sp := v }

def set_user_top (p : fullcontext_t) (v : Nat) : fullcontext_t :=
  { p with info.stacks_.user.top := v }

def set_user_size (p : fullcontext_t) (v : Nat) : fullcontext_t :=
  { p with info.stacks_.user.size := v }

def set_interrupt_sp (p : fullcontext_t) (v : Nat) : fullcontext_t :=
  { p with info.stacks_.interrupt.sp := v }

def set_interrupt_top (p : fullcontext_t) (v : Nat) : fullcontext_t :=
  { p with info.stacks_.interrupt.top := v }

def set_interrupt_size (p : fullcontext_t) (v : Nat) : fullcontext_t :=
  { p with info.stacks_.interrupt.size := v }

def set_istack (p : fullcontext_t) (v : List Nat) : fullcontext_t :=
  { p with istack := v }

def set_ustack (p : fullcontext_t) (v : List Nat) : fullcontext_t :=
  { p with ustack := v }

end fullcontext_t

/-! ## The boot-time check -/

/-- What the boot-time check does to its collaborators and prints, in order. -/
inductive BootEvent where
  /-- The call `stm32_bbsraminitialize(path, filesizes)` -/
  | bbsraminitialize (path : String) (filesizes : List Int)
  /-- The call `open(path, oflags)` -/
  | open_file (path : String) (oflags : Nat)
  /-- The call `ioctl(fd, STM32F7_BBSRAM_GETDESC_IOCTL, desc)` -/
  | ioctl_getdesc (fd : Int)
  /-- The call `unlink(path)` -/
  | unlink (path : String)
  /-- A line printed to the operator with `printf` -/
  | printf (msg : String)
  /-- A diagnostic `syslog(LOG_INFO, fmt, ..., code)` -/
  | syslog (fmt : String) (code : Int)
  deriving DecidableEq, Repr

/-- The storage collaborator over a storage state `σ`: each operation gives its result
and the next state. -/
structure Storage (σ : Type) where
  stm32_bbsraminitialize : String → List Int → σ → σ
  /-- The call `open(path, oflags)`: a file descriptor, or a negative value -/
  open_file : String → Nat → σ → Int × σ
  /-- The descriptor query on a file descriptor -/
  ioctl_getdesc : Int → σ → Int × σ
  unlink : String → σ → Int × σ

/-- The storage state and what has been done so far. -/
structure World (σ : Type) where
  st : σ
  trace : List BootEvent

/-- The result of a function of the boot-time check: its `int` result and the world it
leaves. -/
structure BootResult (σ : Type) where
  rv : Int
  world : World σ

/-- Whether an event is a diagnostic line of `syslog`. -/
def BootEvent.is_diagnostic : BootEvent → Bool
  | BootEvent.syslog _ _ => true
  | _ => false

/-- The calls made to the storage and the lines printed to the operator, in order: the
trace without the diagnostics. -/
def World.actions {σ : Type} (w : World σ) : List BootEvent :=
  w.trace.filter (fun e => !e.is_diagnostic)

def World.log {σ : Type} (w : World σ) (e : BootEvent) : World σ :=
  { w with trace := w.trace ++ [e] }

/-- The function `hardfault_get_desc(&desc)`.  The descriptor the query fills in is not
read by the board code and is left out. -/
def hardfault_get_desc {σ : Type} (S : Storage σ) (w : World σ) : BootResult σ :=
  let ret : Int := - ENOENT
  let fd := (S.open_file HARDFAULT_PATH O_RDONLY w.st).1
  let w : World σ :=
    { st := (S.open_file HARDFAULT_PATH O_RDONLY w.st).2
      trace := w.trace ++ [BootEvent.open_file HARDFAULT_PATH O_RDONLY] }
  if fd < 0 then
    let w :=
      w.log (BootEvent.syslog "stm32 bbsram: Failed to open Fault Log file [%s] (%d)\n" fd)
    { rv := ret, world := w }
  else
    let ret : Int := - EIO
    let rv := (S.ioctl_getdesc fd w.st).1
    let w : World σ :=
      { st := (S.ioctl_getdesc fd w.st).2, trace := w.trace ++ [BootEvent.ioctl_getdesc fd] }
    if rv ≥ 0 then
      let ret := fd
      { rv := ret, world := w }
    else
      let w :=
        w.log (BootEvent.syslog "stm32 bbsram: Failed to get Fault Log descriptor (%d)\n" rv)
      { rv := ret, world := w }

/-- The function `stm32_bbsram_int()`, with `CONFIG_STM32F7_SAVE_CRASHDUMP`, from the
storage state `st`. -/
def stm32_bbsram_int {σ : Type} (S : Storage σ) (st : σ) : BootResult σ :=
  let filesizes := BSRAM_FILE_SIZES
  -- Using Battery Backed Up SRAM
  let w : World σ :=
    { st := S.stm32_bbsraminitialize BBSRAM_PATH filesizes st
      trace := [BootEvent.bbsraminitialize BBSRAM_PATH filesizes] }
  -- Do we have an hard fault in BBSRAM?
  let r := hardfault_get_desc S w
  let rv := r.rv
  let w := r.world
  if rv ≥ OK then
    let w := w.log (BootEvent.printf "There is a hard fault logged.\n")
    let rv := (S.unlink HARDFAULT_PATH w.st).1
    let w : World σ :=
      { st := (S.unlink HARDFAULT_PATH w.st).2
        trace := w.trace ++ [BootEvent.unlink HARDFAULT_PATH] }
    if rv < 0 then
      let w :=
        w.log (BootEvent.syslog
          "stm32 bbsram: Failed to unlink Fault Log file [%s] (%d)\n" rv)
      { rv := rv, world := w }
    else
      { rv := rv, world := w }
  else
    { rv := rv, world := w }

/-- The outcome of the `open` of the boot-time check started in `st`: the file descriptor
or negative value it returns, and the storage state it leaves. -/
def open_outcome {σ : Type} (S : Storage σ) (st : σ) : Int × σ :=
  S.open_file HARDFAULT_PATH O_RDONLY (S.stm32_bbsraminitialize BBSRAM_PATH BSRAM_FILE_SIZES st)

/-- The outcome of the descriptor query, were it made on what `open` returned. -/
def getdesc_outcome {σ : Type} (S : Storage σ) (st : σ) : Int × σ :=
  S.ioctl_getdesc (open_outcome S st).1 (open_outcome S st).2

/-- The outcome of the delete, were it made after the descriptor query. -/
def unlink_outcome {σ : Type} (S : Storage σ) (st : σ) : Int × σ :=
  S.unlink HARDFAULT_PATH (getdesc_outcome S st).2

/-- Modelled from the spec: the abstract storage state of the one-shot consumption, a
crash-record slot that is present (`true`) or absent (`false`).  Opening succeeds with
`fd` exactly when the slot is present and otherwise fails with `err`, changing nothing;
the descriptor query returns `q`; the delete returns `u` and, when it succeeds, removes
the slot.  The storage driver is not part of the sources. -/
def slotStorage (fd err q u : Int) : Storage Bool where
  stm32_bbsraminitialize := fun _ _ s => s
  open_file := fun _ _ s => if s then (fd, s) else (err, s)
  ioctl_getdesc := fun _ s => (q, s)
  unlink := fun _ s => if u ≥ 0 then (u, false) else (u, s)

/-! ## C library functions used -/

/-- The characters of the C string stored in `s`: those before the first NUL. -/
def cstr (s : List Nat) : List Nat := s.takeWhile (fun c => c != 0)

def strlen (s : List Nat) : Nat := (cstr s).length

/-- `strncpy(dest, src, n)`: the first `n` bytes of `dest` become the string in `src`,
cut at `n` bytes and padded with NUL bytes up to `n`. -/
def strncpy (dest src : List Nat) (n : Nat) : List Nat :=
  let s := (cstr src).take n
  s ++ List.replicate (n - s.length) 0 ++ dest.drop n

/-- `memset(pdump, 0, sizeof(fullcontext_t))`; the array sizes are those of the types. -/
def memset_zero (cfg : BoardConfig) (_pdump : fullcontext_t) : fullcontext_t :=
  { info :=
      { flags := 0, current_regs := 0, lineno := 0, pid := 0
        regs := List.replicate cfg.XCPTCONTEXT_REGS 0
        stacks_ := { user := ⟨0, 0, 0⟩, interrupt := ⟨0, 0, 0⟩ }
        name := List.replicate (cfg.CONFIG_TASK_NAME_SIZE + 1) 0
        filename := List.replicate MAX_FILE_PATH_LENGTH 0 }
    istack := List.replicate CONFIG_USTACK_SIZE 0
    ustack := List.replicate CONFIG_ISTACK_SIZE 0 }

/-- `memcpy(regs, (void *)CURRENT_REGS, sizeof(regs))`, word by word. -/
def memcpy_words (mem : Nat → Nat) (dest : List Nat) (src : Nat) : List Nat :=
  (List.range dest.length).map (fun (i : Nat) => deref mem (ptr_index src (i : Int)))

/-! ## `copy_reverse` -/

/-- `copy_reverse(dest, src, size)`: `while (size--) *dest++ = *src--;`.  The destination
is the array `buf` from index `dest` on. -/
def copy_reverse (mem : Nat → Nat) (buf : List Nat) (dest src : Nat) : Nat → List Nat
  | 0 => buf
  | size + 1 => copy_reverse mem (buf.set dest (deref mem src)) (dest + 1) (ptr_dec src) size

/-! ## `board_crashdump` -/

/-- The loop `while (*dead) up_lowputc(*dead++);` over the characters left. -/
def lowputc_string : List Char → List Char → List Char
  | [], out => out
  | c :: dead, out => lowputc_string dead (out ++ [c])

/-- The test `sp <= top && sp > top - size` on a `_stack_t`. -/
def in_bounds (s : _stack_t) : Bool :=
  decide (s.sp ≤ s.top) && decide (s.sp > sub32 s.top s.size)

/-- Lines 356-370: the line number and the tail of the file name.  The `int offset` is
kept as the 32-bit value that is added to the pointer `filename`. -/
def save_info (pdump : fullcontext_t) (filename : Option (List Nat)) (lineno : Int) :
    fullcontext_t :=
  let pdump := pdump.set_lineno lineno
  match filename with
  | some filename =>
    let offset : Nat := 0
    let len := u32 (strlen filename + 1)
    let offset :=
      if len > MAX_FILE_PATH_LENGTH then sub32 len MAX_FILE_PATH_LENGTH else offset
    pdump.set_filename
      (strncpy pdump.info.filename (filename.drop offset) MAX_FILE_PATH_LENGTH)
  | none => pdump

/-- Lines 378-386: the value of `CURRENT_REGS`, the task name and the pid. -/
def save_context (cfg : BoardConfig) (env : CrashEnv) (pdump : fullcontext_t)
    (rtcb : tcb_s) : fullcontext_t :=
  let pdump := pdump.set_current_regs (u32 env.CURRENT_REGS)
  let pdump := pdump.set_name (strncpy pdump.info.name rtcb.name cfg.CONFIG_TASK_NAME_SIZE)
  pdump.set_pid rtcb.pid

/-- Lines 393-406: interrupt context or the users context. -/
def save_stack_pointers (cfg : BoardConfig) (env : CrashEnv) (pdump : fullcontext_t)
    (currentsp : Nat) : fullcontext_t :=
  if u32 env.CURRENT_REGS ≠ 0 then
    let pdump := pdump.set_interrupt_sp currentsp
    let pdump :=
      pdump.set_flags
        (pdump.info.flags ||| (REGS_PRESENT ||| USERSTACK_PRESENT ||| INTSTACK_PRESENT))
    let pdump := pdump.set_regs (memcpy_words env.mem pdump.info.regs env.CURRENT_REGS)
    pdump.set_user_sp (u32 (pdump.info.regs.getD cfg.REG_R13 0))
  else
    -- users context
    let pdump := pdump.set_flags (pdump.info.flags ||| USERSTACK_PRESENT)
    pdump.set_user_sp currentsp

/-- Lines 408-423: the limits of the user stack and of the interrupt stack. -/
def save_stack_limits (cfg : BoardConfig) (pdump : fullcontext_t) (rtcb : tcb_s) :
    fullcontext_t :=
  let pdump :=
    if pdump.info.pid = 0 then
      let pdump := pdump.set_user_top (sub32 cfg.g_idle_topstack 4)
      pdump.set_user_size (u32 cfg.CONFIG_IDLETHREAD_STACKSIZE)
    else
      let pdump := pdump.set_user_top (u32 rtcb.adj_stack_ptr)
      pdump.set_user_size (u32 rtcb.adj_stack_size)
  -- Get the limits on the interrupt stack memory
  let pdump := pdump.set_interrupt_top (u32 cfg.g_intstackbase)
  pdump.set_interrupt_size (u32 (cfg.CONFIG_ARCH_INTERRUPTSTACK &&& 0xFFFFFFFC))

/-- Lines 429-443: the interrupt stack data centered about the interrupt stack pointer,
and the test of that pointer.  The memory `env.mem` read is apart from the static buffer;
`save_istack_live` embeds the same lines for a memory that holds the buffer. -/
def save_istack (env : CrashEnv) (pdump : fullcontext_t) : fullcontext_t :=
  let pdump :=
    if pdump.info.flags &&& INTSTACK_PRESENT ≠ 0 then
      let ps := pdump.info.stacks_.interrupt.sp
      pdump.set_istack
        (copy_reverse env.mem pdump.istack 0
          (ptr_index ps ((CONFIG_USTACK_SIZE / 2 : Nat) : Int)) CONFIG_USTACK_SIZE)
    else pdump
  -- Is it Invalid?
  if ¬ (in_bounds pdump.info.stacks_.interrupt = true) then
    pdump.set_flags (pdump.info.flags ||| INVALID_INTSTACK_PTR)
  else pdump

/-- Lines 450-464: the user stack data centered about the user stack pointer, and the
test of that pointer.  The memory `env.mem` read is apart from the static buffer;
`save_ustack_live` embeds the same lines for a memory that holds the buffer. -/
def save_ustack (env : CrashEnv) (pdump : fullcontext_t) : fullcontext_t :=
  let pdump :=
    if pdump.info.flags &&& USERSTACK_PRESENT ≠ 0 then
      let ps := pdump.info.stacks_.user.sp
      pdump.set_ustack
        (copy_reverse env.mem pdump.ustack 0
          (ptr_index ps ((CONFIG_ISTACK_SIZE / 2 : Nat) : Int)) CONFIG_ISTACK_SIZE)
    else pdump
  -- Is it Invalid?
  if ¬ (in_bounds pdump.info.stacks_.user = true) then
    pdump.set_flags (pdump.info.flags ||| INVALID_USERSTACK_PTR)
  else pdump

/-- Lines 471-485: what is written with `up_lowputc` for the result of the save. -/
def report_save (rv : Int) : List Char :=
  -- Test if memory got wiped because of using _sdata
  if rv = - ENXIO then
    lowputc_string "Memory wiped - dump not saved!".toList []
  else if rv = - ENOSPC then
    -- hard fault again
    ['!']
  else []

/-- The function `board_crashdump(currentsp, tcb, filename, lineno)`; `g_sdata` is the
content of the static buffer on entry.  The whole of it runs inside the critical section
entered on its first line, so nothing else writes the buffer meanwhile. -/
def board_crashdump (cfg : BoardConfig) (env : CrashEnv) (g_sdata : fullcontext_t)
    (currentsp : Nat) (rtcb : tcb_s) (filename : Option (List Nat)) (lineno : Int) :
    CrashResult :=
  -- Zero out everything
  let pdump := memset_zero cfg g_sdata
  -- Save Info
  let pdump := save_info pdump filename lineno
  -- Save Context
  let pdump := save_context cfg env pdump rtcb
  let pdump := save_stack_pointers cfg env pdump (u32 currentsp)
  let pdump := save_stack_limits cfg pdump rtcb
  let pdump := save_istack env pdump
  let pdump := save_ustack env pdump
  let rv := env.stm32_bbsram_savepanic HARDFAULT_FILENO pdump
  { g_sdata := pdump, rv := rv, lowputc := report_save rv
    systemreset := cfg.CONFIG_BOARD_RESET_ON_CRASH }

/-! ## The capture when the memory read holds the static buffer

`board_crashdump` above reads the register save area and the stack windows from a memory
that is apart from the static buffer.  The functions below embed the same lines for a
memory of which the static buffer is a part: what a read returns depends on what the
capture has written to the buffer so far. -/

/-- What the capture reads from the running system, the static buffer being part of the
memory. -/
structure LiveEnv where
  /-- The pointer `CURRENT_REGS`; `0` is `NULL` -/
  CURRENT_REGS : Nat
  /-- The 32-bit word stored at a byte address while the static buffer holds the record
  given -/
  read : fullcontext_t → Nat → Nat
  /-- The save operation: file number and record to its result -/
  stm32_bbsram_savepanic : Nat → fullcontext_t → Int

/-- The system as the capture sees it while the static buffer holds `pdump`. -/
def LiveEnv.seen (env : LiveEnv) (pdump : fullcontext_t) : CrashEnv where
  CURRENT_REGS := env.CURRENT_REGS
  mem := env.read pdump
  stm32_bbsram_savepanic := env.stm32_bbsram_savepanic

/-- `copy_reverse(dest, src, size)`: `while (size--) *dest++ = *src--;`, the destination
being the array `window` of the static buffer from index `dest` on.  Each word is read
from the memory as the words copied before it have left it. -/
def copy_reverse_live (read : fullcontext_t → Nat → Nat) (window : fullcontext_t → List Nat)
    (set_window : fullcontext_t → List Nat → fullcontext_t) (pdump : fullcontext_t)
    (dest src : Nat) : Nat → fullcontext_t
  | 0 => pdump
  | size + 1 =>
    copy_reverse_live read window set_window
      (set_window pdump ((window pdump).set dest (deref (read pdump) src)))
      (dest + 1) (ptr_dec src) size

/-- Lines 393-406 with a memory that holds the static buffer.  The register save area is
read as the memory is when `memcpy` is called; `memcpy` does not allow it to overlap the
register block it fills. -/
def save_stack_pointers_live (cfg : BoardConfig) (env : LiveEnv) (pdump : fullcontext_t)
    (currentsp : Nat) : fullcontext_t :=
  if u32 env.CURRENT_REGS ≠ 0 then
    let pdump := pdump.set_interrupt_sp currentsp
    let pdump :=
      pdump.set_flags
        (pdump.info.flags ||| (REGS_PRESENT ||| USERSTACK_PRESENT ||| INTSTACK_PRESENT))
    let pdump :=
      pdump.set_regs (memcpy_words (env.read pdump) pdump.info.regs env.CURRENT_REGS)
    pdump.set_user_sp (u32 (pdump.info.regs.getD cfg.REG_R13 0))
  else
    -- users context
    let pdump := pdump.set_flags (pdump.info.flags ||| USERSTACK_PRESENT)
    pdump.set_user_sp currentsp

/-- Lines 429-443 with a memory that holds the static buffer. -/
def save_istack_live (env : LiveEnv) (pdump : fullcontext_t) : fullcontext_t :=
  let pdump :=
    if pdump.info.flags &&& INTSTACK_PRESENT ≠ 0 then
      let ps := pdump.info.stacks_.interrupt.sp
      copy_reverse_live env.read fullcontext_t.istack fullcontext_t.set_istack pdump 0
        (ptr_index ps ((CONFIG_USTACK_SIZE / 2 : Nat) : Int)) CONFIG_USTACK_SIZE
    else pdump
  -- Is it Invalid?
  if ¬ (in_bounds pdump.info.stacks_.interrupt = true) then
    pdump.set_flags (pdump.info.flags ||| INVALID_INTSTACK_PTR)
  else pdump

/-- Lines 450-455 with a memory that holds the static buffer: the copy of the user stack
data. -/
def copy_ustack_live (env : LiveEnv) (pdump : fullcontext_t) : fullcontext_t :=
  if pdump.info.flags &&& USERSTACK_PRESENT ≠ 0 then
    let ps := pdump.info.stacks_.user.sp
    copy_reverse_live env.read fullcontext_t.ustack fullcontext_t.set_ustack pdump 0
      (ptr_index ps ((CONFIG_ISTACK_SIZE / 2 : Nat) : Int)) CONFIG_ISTACK_SIZE
  else pdump

/-- Lines 450-464 with a memory that holds the static buffer. -/
def save_ustack_live (env : LiveEnv) (pdump : fullcontext_t) : fullcontext_t :=
  let pdump := copy_ustack_live env pdump
  -- Is it Invalid?
  if ¬ (in_bounds pdump.info.stacks_.user = true) then
    pdump.set_flags (pdump.info.flags ||| INVALID_USERSTACK_PTR)
  else pdump

/-- The record in the static buffer when the copy of the user stack data starts: lines
342-443 of `board_crashdump`. -/
def before_ustack_copy (cfg : BoardConfig) (env : LiveEnv) (g_sdata : fullcontext_t)
    (currentsp : Nat) (rtcb : tcb_s) (filename : Option (List Nat)) (lineno : Int) :
    fullcontext_t :=
  -- Zero out everything
  let pdump := memset_zero cfg g_sdata
  -- Save Info
  let pdump := save_info pdump filename lineno
  -- Save Context
  let pdump := save_context cfg (env.seen pdump) pdump rtcb
  let pdump := save_stack_pointers_live cfg env pdump (u32 currentsp)
  let pdump := save_stack_limits cfg pdump rtcb
  save_istack_live env pdump

/-- The record in the static buffer when word `i` of the user stack window is read: the
words `0 .. i - 1` of the window have been copied. -/
def at_ustack_word (cfg : BoardConfig) (env : LiveEnv) (g_sdata : fullcontext_t)
    (currentsp : Nat) (rtcb : tcb_s) (filename : Option (List Nat)) (lineno : Int)
    (i : Nat) : fullcontext_t :=
  copy_reverse_live env.read fullcontext_t.ustack fullcontext_t.set_ustack
    (before_ustack_copy cfg env g_sdata currentsp rtcb filename lineno) 0
    (ptr_index (before_ustack_copy cfg env g_sdata currentsp rtcb filename
      lineno).info.stacks_.user.sp ((CONFIG_ISTACK_SIZE / 2 : Nat) : Int)) i

/-- The function `board_crashdump(currentsp, tcb, filename, lineno)` with a memory that
holds the static buffer; `g_sdata` is the content of the static buffer on entry. -/
def board_crashdump_live (cfg : BoardConfig) (env : LiveEnv) (g_sdata : fullcontext_t)
    (currentsp : Nat) (rtcb : tcb_s) (filename : Option (List Nat)) (lineno : Int) :
    CrashResult :=
  let pdump := before_ustack_copy cfg env g_sdata currentsp rtcb filename lineno
  let pdump := save_ustack_live env pdump
  let rv := env.stm32_bbsram_savepanic HARDFAULT_FILENO pdump
  { g_sdata := pdump, rv := rv, lowputc := report_save rv
    systemreset := cfg.CONFIG_BOARD_RESET_ON_CRASH }

/-- A memory apart from the static buffer, as a memory that holds it: no read depends on
the record. -/
def CrashEnv.apart (env : CrashEnv) : LiveEnv where
  CURRENT_REGS := env.CURRENT_REGS
  read := fun _ => env.mem
  stm32_bbsram_savepanic := env.stm32_bbsram_savepanic

/-! ### A layout of the static buffer -/

/-- An `int` as the 32-bit word that stores it. -/
def int_word (x : Int) : Nat := Int.toNat (x % 2 ^ 32)

/-- Word `j` of an array of `char`, the byte of the lowest address lowest in the word. -/
def chars_word (bytes : List Nat) (j : Nat) : Nat :=
  bytes.getD (4 * j) 0 + 256 * bytes.getD (4 * j + 1) 0 + 65536 * bytes.getD (4 * j + 2) 0 +
    16777216 * bytes.getD (4 * j + 3) 0

/-- The number of words the arrays `name` and `filename` of `info_t` take together, the
end of `info_t` being padded to a whole word. -/
def chars_words (cfg : BoardConfig) : Nat :=
  (cfg.CONFIG_TASK_NAME_SIZE + 1 + MAX_FILE_PATH_LENGTH + 3) / 4

/-- The number of words of a `fullcontext_t`. -/
def fullcontext_words (cfg : BoardConfig) : Nat :=
  10 + cfg.XCPTCONTEXT_REGS + chars_words cfg + CONFIG_USTACK_SIZE + CONFIG_ISTACK_SIZE

/-- Word `k` of the static buffer holding `p`, the fields laid out in the order of the
typedefs `info_t` and `fullcontext_t`, every scalar field one 4-byte word. -/
def g_sdata_word (cfg : BoardConfig) (p : fullcontext_t) (k : Nat) : Nat :=
  if k = 0 then p.info.flags
  else if k = 1 then p.info.current_regs
  else if k = 2 then int_word p.info.lineno
  else if k = 3 then int_word p.info.pid
  else if k < 4 + cfg.XCPTCONTEXT_REGS then p.info.regs.getD (k - 4) 0
  else if k = 4 + cfg.XCPTCONTEXT_REGS then p.info.stacks_.user.sp
  else if k = 5 + cfg.XCPTCONTEXT_REGS then p.info.stacks_.user.top
  else if k = 6 + cfg.XCPTCONTEXT_REGS then p.info.stacks_.user.size
  else if k = 7 + cfg.XCPTCONTEXT_REGS then p.info.stacks_.interrupt.sp
  else if k = 8 + cfg.XCPTCONTEXT_REGS then p.info.stacks_.interrupt.top
  else if k = 9 + cfg.XCPTCONTEXT_REGS then p.info.stacks_.interrupt.size
  else if k < 10 + cfg.XCPTCONTEXT_REGS + chars_words cfg then
    chars_word (p.info.name ++ p.info.filename) (k - (10 + cfg.XCPTCONTEXT_REGS))
  else if k < 10 + cfg.XCPTCONTEXT_REGS + chars_words cfg + CONFIG_USTACK_SIZE then
    p.istack.getD (k - (10 + cfg.XCPTCONTEXT_REGS + chars_words cfg)) 0
  else
    p.ustack.getD (k - (10 + cfg.XCPTCONTEXT_REGS + chars_words cfg + CONFIG_USTACK_SIZE)) 0

/-- A memory with the static buffer at the address `base`: a word-aligned address inside
the buffer holds the word of the record stored there, every other address the word of
`mem`.  Reads of the buffer that are not word-aligned are not laid out. -/
def read_with_buffer (cfg : BoardConfig) (base : Nat) (mem : Nat → Nat) (p : fullcontext_t)
    (a : Nat) : Nat :=
  if base ≤ a ∧ a < base + 4 * fullcontext_words cfg ∧ (a - base) % 4 = 0 then
    g_sdata_word cfg p ((a - base) / 4)
  else mem a

/-! ## The two stack kinds -/

/-- The stack kinds of a snapshot. -/
inductive StackKind where
  | user
  | interrupt
  deriving DecidableEq, Repr

/-- The pointer and limits recorded for a stack kind. -/
def StackKind.recorded (k : StackKind) (d : fullcontext_t) : _stack_t :=
  match k with
  | StackKind.user => d.info.stacks_.user
  | StackKind.interrupt => d.info.stacks_.interrupt

/-- The flag that marks the pointer of a stack kind as invalid. -/
def StackKind.INVALID_PTR (k : StackKind) : Nat :=
  match k with
  | StackKind.user => INVALID_USERSTACK_PTR
  | StackKind.interrupt => INVALID_INTSTACK_PTR

/-- Whether a flag is set in a flags word. -/
def flag_set (flags flag : Nat) : Prop := flags &&& flag ≠ 0

instance (flags flag : Nat) : Decidable (flag_set flags flag) := by
  unfold flag_set
  infer_instance

/-! ## Inputs used as examples -/

/-- A board configuration: 17 saved registers with the stack pointer first. -/
def exampleConfig : BoardConfig where
  XCPTCONTEXT_REGS := 17
  REG_R13 := 0
  CONFIG_TASK_NAME_SIZE := 31
  g_idle_topstack := 0x20010000
  CONFIG_IDLETHREAD_STACKSIZE := 1024
  g_intstackbase := 0x20020000
  CONFIG_ARCH_INTERRUPTSTACK := 2048
  CONFIG_BOARD_RESET_ON_CRASH := false

/-- A memory in which every word holds its own address. -/
def addressMemory : Nat → Nat := fun a => a

/-- A fault in task context: no register save area is active, the save succeeds. -/
def taskEnv : CrashEnv where
  CURRENT_REGS := 0
  mem := addressMemory
  stm32_bbsram_savepanic := fun _ _ => 0

/-- A fault in interrupt context, with the register save area at `0x20003000`. -/
def interruptEnv : CrashEnv where
  CURRENT_REGS := 0x20003000
  mem := addressMemory
  stm32_bbsram_savepanic := fun _ _ => 0

/-- The task with id 5, stack top `0x20000200` and stack size `0x100`. -/
def task5 : tcb_s where
  pid := 5
  name := [105, 110, 105, 116, 0]
  adj_stack_ptr := 0x20000200
  adj_stack_size := 0x100

/-- A memory in which the word at `0x20003000` is `0x200000F0` and every other word holds
its own address. -/
def savedSpMemory : Nat → Nat := fun a => if a = 0x20003000 then 0x200000F0 else a

/-- A fault in interrupt context with the register save area at `0x20003000`, whose saved
stack pointer register is `0x200000F0`. -/
def interruptEnvBelow : CrashEnv where
  CURRENT_REGS := 0x20003000
  mem := savedSpMemory
  stm32_bbsram_savepanic := fun _ _ => 0

/-- A task whose recorded stack size `0x200` exceeds its stack top `0x100`. -/
def wrapTask : tcb_s where
  pid := 7
  name := [119, 0]
  adj_stack_ptr := 0x100
  adj_stack_size := 0x200

/-- The idle task, with stack fields that are not the idle stack of the board. -/
def idleTask : tcb_s where
  pid := 0
  name := [73, 100, 108, 101, 0]
  adj_stack_ptr := 0x20000200
  adj_stack_size := 0x100

/-- The address of the static buffer in the examples that read it. -/
def exampleBase : Nat := 0x20030000

/-- A fault in task context with the static buffer at `0x20030000` in the memory read;
outside the buffer every word holds its own address. -/
def overlapEnv : LiveEnv where
  CURRENT_REGS := 0
  read := read_with_buffer exampleConfig exampleBase addressMemory
  stm32_bbsram_savepanic := fun _ _ => 0

/-- The address of `g_sdata.info.stacks.user.top` in the examples: word 22 of the
buffer. -/
def exampleTopAddress : Nat := 0x20030058

/-- The task with id 5, stack top `0x20000300` and stack size `0x180`. -/
def task5Moved : tcb_s where
  pid := 5
  name := [105, 110, 105, 116, 0]
  adj_stack_ptr := 0x20000300
  adj_stack_size := 0x180

/-- A file name of 50 characters, the bytes 1 to 50. -/
def longFileName : List Nat := (List.range 50).map (fun i => i + 1)

/-- A content of the static buffer before a capture. -/
def staleBuffer : fullcontext_t where
  info :=
    { flags := 0x67, current_regs := 1, lineno := 7, pid := 9, regs := [1, 2, 3]
      stacks_ := { user := ⟨1, 2, 3⟩, interrupt := ⟨4, 5, 6⟩ }
      name := [120], filename := [121] }
  istack := [7]
  ustack := [8]

/-! ## Reading a field after an assignment -/

namespace fullcontext_t

@[simp]
theorem get_set_flags (p : fullcontext_t) (v : Nat) :
    (p.set_flags v).info.flags = v ∧
      (p.set_flags v).info.current_regs = p.info.current_regs ∧
      (p.set_flags v).info.lineno = p.info.lineno ∧
      (p.set_flags v).info.pid = p.info.pid ∧
      (p.set_flags v).info.regs = p.info.regs ∧
      (p.set_flags v).info.name = p.info.name ∧
      (p.set_flags v).info.filename = p.info.filename ∧
      (p.set_flags v).info.stacks_.user = p.info.stacks_.user ∧
      (p.set_flags v).info.stacks_.interrupt = p.info.stacks_.interrupt ∧
      (p.set_flags v).istack = p.istack ∧
      (p.set_flags v).ustack = p.ustack :=
  ⟨rfl, rfl, rfl, rfl, rfl, rfl, rfl, rfl, rfl, rfl, rfl⟩

@[simp]
theorem get_set_current_regs (p : fullcontext_t) (v : Nat) :
    (p.set_current_regs v).info.flags = p.info.flags ∧
      (p.set_current_regs v).info.current_regs = v ∧
      (p.set_current_regs v).info.lineno = p.info.lineno ∧
      (p.set_current_regs v).info.pid = p.info.pid ∧
      (p.set_current_regs v).info.regs = p.info.regs ∧
      (p.set_current_regs v).info.name = p.info.name ∧
      (p.set_current_regs v).info.filename = p.info.filename ∧
      (p.set_current_regs v).info.stacks_.user = p.info.stacks_.user ∧
      (p.set_current_regs v).info.stacks_.interrupt = p.info.stacks_.interrupt ∧
      (p.set_current_regs v).istack = p.istack ∧
      (p.set_current_regs v).ustack = p.ustack :=
  ⟨rfl, rfl, rfl, rfl, rfl, rfl, rfl, rfl, rfl, rfl, rfl⟩

@[simp]
theorem get_set_lineno (p : fullcontext_t) (v : Int) :
    (p.set_lineno v).info.flags = p.info.flags ∧
      (p.set_lineno v).info.current_regs = p.info.current_regs ∧
      (p.set_lineno v).info.lineno = v ∧
      (p.set_lineno v).info.pid = p.info.pid ∧
      (p.set_lineno v).info.regs = p.info.regs ∧
      (p.set_lineno v).info.name = p.info.name ∧
      (p.set_lineno v).info.filename = p.info.filename ∧
      (p.set_lineno v).info.stacks_.user = p.info.stacks_.user ∧
      (p.set_lineno v).info.stacks_.interrupt = p.info.stacks_.interrupt ∧
      (p.set_lineno v).istack = p.istack ∧
      (p.set_lineno v).ustack = p.ustack :=
  ⟨rfl, rfl, rfl, rfl, rfl, rfl, rfl, rfl, rfl, rfl, rfl⟩

@[simp]
theorem get_set_pid (p : fullcontext_t) (v : Int) :
    (p.set_pid v).info.flags = p.info.flags ∧
      (p.set_pid v).info.current_regs = p.info.current_regs ∧
      (p.set_pid v).info.lineno = p.info.lineno ∧
      (p.set_pid v).info.pid = v ∧
      (p.set_pid v).info.regs = p.info.regs ∧
      (p.set_pid v).info.name = p.info.name ∧
      (p.set_pid v).info.filename = p.info.filename ∧
      (p.set_pid v).info.stacks_.user = p.info.stacks_.user ∧
      (p.set_pid v).info.stacks_.interrupt = p.info.stacks_.interrupt ∧
      (p.set_pid v).istack = p.istack ∧
      (p.set_pid v).ustack = p.ustack :=
  ⟨rfl, rfl, rfl, rfl, rfl, rfl, rfl, rfl, rfl, rfl, rfl⟩

@[simp]
theorem get_set_regs (p : fullcontext_t) (v : List Nat) :
    (p.set_regs v).info.flags = p.info.flags ∧
      (p.set_regs v).info.current_regs = p.info.current_regs ∧
      (p.set_regs v).info.lineno = p.info.lineno ∧
      (p.set_regs v).info.pid = p.info.pid ∧
      (p.set_regs v).info.regs = v ∧
      (p.set_regs v).info.name = p.info.name ∧
      (p.set_regs v).info.filename = p.info.filename ∧
      (p.set_regs v).info.stacks_.user = p.info.stacks_.user ∧
      (p.set_regs v).info.stacks_.interrupt = p.info.stacks_.interrupt ∧
      (p.set_regs v).istack = p.istack ∧
      (p.set_regs v).ustack = p.ustack :=
  ⟨rfl, rfl, rfl, rfl, rfl, rfl, rfl, rfl, rfl, rfl, rfl⟩

@[simp]
theorem get_set_name (p : fullcontext_t) (v : List Nat) :
    (p.set_name v).info.flags = p.info.flags ∧
      (p.set_name v).info.current_regs = p.info.current_regs ∧
      (p.set_name v).info.lineno = p.info.lineno ∧
      (p.set_name v).info.pid = p.info.pid ∧
      (p.set_name v).info.regs = p.info.regs ∧
      (p.set_name v).info.name = v ∧
      (p.set_name v).info.filename = p.info.filename ∧
      (p.set_name v).info.stacks_.user = p.info.stacks_.user ∧
      (p.set_name v).info.stacks_.interrupt = p.info.stacks_.interrupt ∧
      (p.set_name v).istack = p.istack ∧
      (p.set_name v).ustack = p.ustack :=
  ⟨rfl, rfl, rfl, rfl, rfl, rfl, rfl, rfl, rfl, rfl, rfl⟩

@[simp]
theorem get_set_filename (p : fullcontext_t) (v : List Nat) :
    (p.set_filename v).info.flags = p.info.flags ∧
      (p.set_filename v).info.current_regs = p.info.current_regs ∧
      (p.set_filename v).info.lineno = p.info.lineno ∧
      (p.set_filename v).info.pid = p.info.pid ∧
      (p.set_filename v).info.regs = p.info.regs ∧
      (p.set_filename v).info.name = p.info.name ∧
      (p.set_filename v).info.filename = v ∧
      (p.set_filename v).info.stacks_.user = p.info.stacks_.user ∧
      (p.set_filename v).info.stacks_.interrupt = p.info.stacks_.interrupt ∧
      (p.set_filename v).istack = p.istack ∧
      (p.set_filename v).ustack = p.ustack :=
  ⟨rfl, rfl, rfl, rfl, rfl, rfl, rfl, rfl, rfl, rfl, rfl⟩

@[simp]
theorem get_set_user_sp (p : fullcontext_t) (v : Nat) :
    (p.set_user_sp v).info.flags = p.info.flags ∧
      (p.set_user_sp v).info.current_regs = p.info.current_regs ∧
      (p.set_user_sp v).info.lineno = p.info.lineno ∧
      (p.set_user_sp v).info.pid = p.info.pid ∧
      (p.set_user_sp v).info.regs = p.info.regs ∧
      (p.set_user_sp v).info.name = p.info.name ∧
      (p.set_user_sp v).info.filename = p.info.filename ∧
      (p.set_user_sp v).info.stacks_.user = { p.info.stacks_.user with sp := v } ∧
      (p.set_user_sp v).info.stacks_.interrupt = p.info.stacks_.interrupt ∧
      (p.set_user_sp v).istack = p.istack ∧
      (p.set_user_sp v).ustack = p.ustack :=
  ⟨rfl, rfl, rfl, rfl, rfl, rfl, rfl, rfl, rfl, rfl, rfl⟩

@[simp]
theorem get_set_user_top (p : fullcontext_t) (v : Nat) :
    (p.set_user_top v).info.flags = p.info.flags ∧
      (p.set_user_top v).info.current_regs = p.info.current_regs ∧
      (p.set_user_top v).info.lineno = p.info.lineno ∧
      (p.set_user_top v).info.pid = p.info.pid ∧
      (p.set_user_top v).info.regs = p.info.regs ∧
      (p.set_user_top v).info.name = p.info.name ∧
      (p.set_user_top v).info.filename = p.info.filename ∧
      (p.set_user_top v).info.stacks_.user = { p.info.stacks_.user with top := v } ∧
      (p.set_user_top v).info.stacks_.interrupt = p.info.stacks_.interrupt ∧
      (p.set_user_top v).istack = p.istack ∧
      (p.set_user_top v).ustack = p.ustack :=
  ⟨rfl, rfl, rfl, rfl, rfl, rfl, rfl, rfl, rfl, rfl, rfl⟩

@[simp]
theorem get_set_user_size (p : fullcontext_t) (v : Nat) :
    (p.set_user_size v).info.flags = p.info.flags ∧
      (p.set_user_size v).info.current_regs = p.info.current_regs ∧
      (p.set_user_size v).info.lineno = p.info.lineno ∧
      (p.set_user_size v).info.pid = p.info.pid ∧
      (p.set_user_size v).info.regs = p.info.regs ∧
      (p.set_user_size v).info.name = p.info.name ∧
      (p.set_user_size v).info.filename = p.info.filename ∧
      (p.set_user_size v).info.stacks_.user = { p.info.stacks_.user with size := v } ∧
      (p.set_user_size v).info.stacks_.interrupt = p.info.stacks_.interrupt ∧
      (p.set_user_size v).istack = p.istack ∧
      (p.set_user_size v).ustack = p.ustack :=
  ⟨rfl, rfl, rfl, rfl, rfl, rfl, rfl, rfl, rfl, rfl, rfl⟩

@[simp]
theorem get_set_interrupt_sp (p : fullcontext_t) (v : Nat) :
    (p.set_interrupt_sp v).info.flags = p.info.flags ∧
      (p.set_interrupt_sp v).info.current_regs = p.info.current_regs ∧
      (p.set_interrupt_sp v).info.lineno = p.info.lineno ∧
      (p.set_interrupt_sp v).info.pid = p.info.pid ∧
      (p.set_interrupt_sp v).info.regs = p.info.regs ∧
      (p.set_interrupt_sp v).info.name = p.info.name ∧
      (p.set_interrupt_sp v).info.filename = p.info.filename ∧
      (p.set_interrupt_sp v).info.stacks_.user = p.info.stacks_.user ∧
      (p.set_interrupt_sp v).info.stacks_.interrupt = { p.info.stacks_.interrupt with sp := v } ∧
      (p.set_interrupt_sp v).istack = p.istack ∧
      (p.set_interrupt_sp v).ustack = p.ustack :=
  ⟨rfl, rfl, rfl, rfl, rfl, rfl, rfl, rfl, rfl, rfl, rfl⟩

@[simp]
theorem get_set_interrupt_top (p : fullcontext_t) (v : Nat) :
    (p.set_interrupt_top v).info.flags = p.info.flags ∧
      (p.set_interrupt_top v).info.current_regs = p.info.current_regs ∧
      (p.set_interrupt_top v).info.lineno = p.info.lineno ∧
      (p.set_interrupt_top v).info.pid = p.info.pid ∧
      (p.set_interrupt_top v).info.regs = p.info.regs ∧
      (p.set_interrupt_top v).info.name = p.info.name ∧
      (p.set_interrupt_top v).info.filename = p.info.filename ∧
      (p.set_interrupt_top v).info.stacks_.user = p.info.stacks_.user ∧
      (p.set_interrupt_top v).info.stacks_.interrupt =
        { p.info.stacks_.interrupt with top := v } ∧
      (p.set_interrupt_top v).istack = p.istack ∧
      (p.set_interrupt_top v).ustack = p.ustack :=
  ⟨rfl, rfl, rfl, rfl, rfl, rfl, rfl, rfl, rfl, rfl, rfl⟩

@[simp]
theorem get_set_interrupt_size (p : fullcontext_t) (v : Nat) :
    (p.set_interrupt_size v).info.flags = p.info.flags ∧
      (p.set_interrupt_size v).info.current_regs = p.info.current_regs ∧
      (p.set_interrupt_size v).info.lineno = p.info.lineno ∧
      (p.set_interrupt_size v).info.pid = p.info.pid ∧
      (p.set_interrupt_size v).info.regs = p.info.regs ∧
      (p.set_interrupt_size v).info.name = p.info.name ∧
      (p.set_interrupt_size v).info.filename = p.info.filename ∧
      (p.set_interrupt_size v).info.stacks_.user = p.info.stacks_.user ∧
      (p.set_interrupt_size v).info.stacks_.interrupt =
        { p.info.stacks_.interrupt with size := v } ∧
      (p.set_interrupt_size v).istack = p.istack ∧
      (p.set_interrupt_size v).ustack = p.ustack :=
  ⟨rfl, rfl, rfl, rfl, rfl, rfl, rfl, rfl, rfl, rfl, rfl⟩

@[simp]
theorem get_set_istack (p : fullcontext_t) (v : List Nat) :
    (p.set_istack v).info.flags = p.info.flags ∧
      (p.set_istack v).info.current_regs = p.info.current_regs ∧
      (p.set_istack v).info.lineno = p.info.lineno ∧
      (p.set_istack v).info.pid = p.info.pid ∧
      (p.set_istack v).info.regs = p.info.regs ∧
      (p.set_istack v).info.name = p.info.name ∧
      (p.set_istack v).info.filename = p.info.filename ∧
      (p.set_istack v).info.stacks_.user = p.info.stacks_.user ∧
      (p.set_istack v).info.stacks_.interrupt = p.info.stacks_.interrupt ∧
      (p.set_istack v).istack = v ∧
      (p.set_istack v).ustack = p.ustack :=
  ⟨rfl, rfl, rfl, rfl, rfl, rfl, rfl, rfl, rfl, rfl, rfl⟩

@[simp]
theorem get_set_ustack (p : fullcontext_t) (v : List Nat) :
    (p.set_ustack v).info.flags = p.info.flags ∧
      (p.set_ustack v).info.current_regs = p.info.current_regs ∧
      (p.set_ustack v).info.lineno = p.info.lineno ∧
      (p.set_ustack v).info.pid = p.info.pid ∧
      (p.set_ustack v).info.regs = p.info.regs ∧
      (p.set_ustack v).info.name = p.info.name ∧
      (p.set_ustack v).info.filename = p.info.filename ∧
      (p.set_ustack v).info.stacks_.user = p.info.stacks_.user ∧
      (p.set_ustack v).info.stacks_.interrupt = p.info.stacks_.interrupt ∧
      (p.set_ustack v).istack = p.istack ∧
      (p.set_ustack v).ustack = v :=
  ⟨rfl, rfl, rfl, rfl, rfl, rfl, rfl, rfl, rfl, rfl, rfl⟩

end fullcontext_t

/-! ## What each step of the capture assigns -/

section steps
variable (cfg : BoardConfig) (env : CrashEnv) (p : fullcontext_t) (rtcb : tcb_s)

theorem memset_zero_fields :
    (memset_zero cfg p).info.flags = 0 ∧
      (memset_zero cfg p).info.current_regs = 0 ∧
      (memset_zero cfg p).info.lineno = 0 ∧
      (memset_zero cfg p).info.pid = 0 ∧
      (memset_zero cfg p).info.regs = List.replicate cfg.XCPTCONTEXT_REGS 0 ∧
      (memset_zero cfg p).info.name = List.replicate (cfg.CONFIG_TASK_NAME_SIZE + 1) 0 ∧
      (memset_zero cfg p).info.filename = List.replicate MAX_FILE_PATH_LENGTH 0 ∧
      (memset_zero cfg p).info.stacks_.user = ⟨0, 0, 0⟩ ∧
      (memset_zero cfg p).info.stacks_.interrupt = ⟨0, 0, 0⟩ ∧
      (memset_zero cfg p).istack = List.replicate CONFIG_USTACK_SIZE 0 ∧
      (memset_zero cfg p).ustack = List.replicate CONFIG_ISTACK_SIZE 0 :=
  ⟨rfl, rfl, rfl, rfl, rfl, rfl, rfl, rfl, rfl, rfl, rfl⟩

theorem save_info_fields (filename : Option (List Nat)) (lineno : Int) :
    (save_info p filename lineno).info.flags = p.info.flags ∧
      (save_info p filename lineno).info.current_regs = p.info.current_regs ∧
      (save_info p filename lineno).info.lineno = lineno ∧
      (save_info p filename lineno).info.pid = p.info.pid ∧
      (save_info p filename lineno).info.regs = p.info.regs ∧
      (save_info p filename lineno).info.name = p.info.name ∧
      (save_info p filename lineno).info.filename =
        (match filename with
          | some f =>
            strncpy p.info.filename
              (f.drop (if u32 (strlen f + 1) > MAX_FILE_PATH_LENGTH
                then sub32 (u32 (strlen f + 1)) MAX_FILE_PATH_LENGTH else 0))
              MAX_FILE_PATH_LENGTH
          | none => p.info.filename) ∧
      (save_info p filename lineno).info.stacks_.user = p.info.stacks_.user ∧
      (save_info p filename lineno).info.stacks_.interrupt = p.info.stacks_.interrupt ∧
      (save_info p filename lineno).istack = p.istack ∧
      (save_info p filename lineno).ustack = p.ustack := by
  cases filename <;> simp [save_info]

theorem save_context_fields :
    (save_context cfg env p rtcb).info.flags = p.info.flags ∧
      (save_context cfg env p rtcb).info.current_regs = u32 env.CURRENT_REGS ∧
      (save_context cfg env p rtcb).info.lineno = p.info.lineno ∧
      (save_context cfg env p rtcb).info.pid = rtcb.pid ∧
      (save_context cfg env p rtcb).info.regs = p.info.regs ∧
      (save_context cfg env p rtcb).info.name =
        strncpy p.info.name rtcb.name cfg.CONFIG_TASK_NAME_SIZE ∧
      (save_context cfg env p rtcb).info.filename = p.info.filename ∧
      (save_context cfg env p rtcb).info.stacks_.user = p.info.stacks_.user ∧
      (save_context cfg env p rtcb).info.stacks_.interrupt = p.info.stacks_.interrupt ∧
      (save_context cfg env p rtcb).istack = p.istack ∧
      (save_context cfg env p rtcb).ustack = p.ustack := by
  simp [save_context]

theorem save_stack_pointers_fields (currentsp : Nat) :
    (save_stack_pointers cfg env p currentsp).info.flags =
        (p.info.flags ||| (if u32 env.CURRENT_REGS ≠ 0
          then REGS_PRESENT ||| USERSTACK_PRESENT ||| INTSTACK_PRESENT
          else USERSTACK_PRESENT)) ∧
      (save_stack_pointers cfg env p currentsp).info.current_regs = p.info.current_regs ∧
      (save_stack_pointers cfg env p currentsp).info.lineno = p.info.lineno ∧
      (save_stack_pointers cfg env p currentsp).info.pid = p.info.pid ∧
      (save_stack_pointers cfg env p currentsp).info.regs =
        (if u32 env.CURRENT_REGS ≠ 0
          then memcpy_words env.mem p.info.regs env.CURRENT_REGS else p.info.regs) ∧
      (save_stack_pointers cfg env p currentsp).info.name = p.info.name ∧
      (save_stack_pointers cfg env p currentsp).info.filename = p.info.filename ∧
      (save_stack_pointers cfg env p currentsp).info.stacks_.user =
        { p.info.stacks_.user with
          sp :=
            if u32 env.CURRENT_REGS ≠ 0
              then u32 ((memcpy_words env.mem p.info.regs env.CURRENT_REGS).getD cfg.REG_R13 0)
              else currentsp } ∧
      (save_stack_pointers cfg env p currentsp).info.stacks_.interrupt =
        { p.info.stacks_.interrupt with
          sp := if u32 env.CURRENT_REGS ≠ 0 then currentsp else p.info.stacks_.interrupt.sp } ∧
      (save_stack_pointers cfg env p currentsp).istack = p.istack ∧
      (save_stack_pointers cfg env p currentsp).ustack = p.ustack := by
  unfold save_stack_pointers
  split_ifs <;> simp

theorem save_stack_limits_fields :
    (save_stack_limits cfg p rtcb).info.flags = p.info.flags ∧
      (save_stack_limits cfg p rtcb).info.current_regs = p.info.current_regs ∧
      (save_stack_limits cfg p rtcb).info.lineno = p.info.lineno ∧
      (save_stack_limits cfg p rtcb).info.pid = p.info.pid ∧
      (save_stack_limits cfg p rtcb).info.regs = p.info.regs ∧
      (save_stack_limits cfg p rtcb).info.name = p.info.name ∧
      (save_stack_limits cfg p rtcb).info.filename = p.info.filename ∧
      (save_stack_limits cfg p rtcb).info.stacks_.user =
        { sp := p.info.stacks_.user.sp
          top := if p.info.pid = 0 then sub32 cfg.g_idle_topstack 4 else u32 rtcb.adj_stack_ptr
          size :=
            if p.info.pid = 0 then u32 cfg.CONFIG_IDLETHREAD_STACKSIZE
              else u32 rtcb.adj_stack_size } ∧
      (save_stack_limits cfg p rtcb).info.stacks_.interrupt =
        { sp := p.info.stacks_.interrupt.sp
          top := u32 cfg.g_intstackbase
          size := u32 (cfg.CONFIG_ARCH_INTERRUPTSTACK &&& 0xFFFFFFFC) } ∧
      (save_stack_limits cfg p rtcb).istack = p.istack ∧
      (save_stack_limits cfg p rtcb).ustack = p.ustack := by
  unfold save_stack_limits
  split_ifs <;> simp

theorem save_istack_fields :
    (save_istack env p).info.flags =
        (p.info.flags |||
          (if in_bounds p.info.stacks_.interrupt then 0 else INVALID_INTSTACK_PTR)) ∧
      (save_istack env p).info.current_regs = p.info.current_regs ∧
      (save_istack env p).info.lineno = p.info.lineno ∧
      (save_istack env p).info.pid = p.info.pid ∧
      (save_istack env p).info.regs = p.info.regs ∧
      (save_istack env p).info.name = p.info.name ∧
      (save_istack env p).info.filename = p.info.filename ∧
      (save_istack env p).info.stacks_.user = p.info.stacks_.user ∧
      (save_istack env p).info.stacks_.interrupt = p.info.stacks_.interrupt ∧
      (save_istack env p).istack =
        (if p.info.flags &&& INTSTACK_PRESENT ≠ 0
          then copy_reverse env.mem p.istack 0
            (ptr_index p.info.stacks_.interrupt.sp ((CONFIG_USTACK_SIZE / 2 : Nat) : Int))
            CONFIG_USTACK_SIZE
          else p.istack) ∧
      (save_istack env p).ustack = p.ustack := by
  unfold save_istack
  by_cases h1 : p.info.flags &&& INTSTACK_PRESENT ≠ 0 <;>
  by_cases h2 : in_bounds p.info.stacks_.interrupt = true <;>
  simp [h1, h2]

theorem save_ustack_fields :
    (save_ustack env p).info.flags =
        (p.info.flags |||
          (if in_bounds p.info.stacks_.user then 0 else INVALID_USERSTACK_PTR)) ∧
      (save_ustack env p).info.current_regs = p.info.current_regs ∧
      (save_ustack env p).info.lineno = p.info.lineno ∧
      (save_ustack env p).info.pid = p.info.pid ∧
      (save_ustack env p).info.regs = p.info.regs ∧
      (save_ustack env p).info.name = p.info.name ∧
      (save_ustack env p).info.filename = p.info.filename ∧
      (save_ustack env p).info.stacks_.user = p.info.stacks_.user ∧
      (save_ustack env p).info.stacks_.interrupt = p.info.stacks_.interrupt ∧
      (save_ustack env p).istack = p.istack ∧
      (save_ustack env p).ustack =
        (if p.info.flags &&& USERSTACK_PRESENT ≠ 0
          then copy_reverse env.mem p.ustack 0
            (ptr_index p.info.stacks_.user.sp ((CONFIG_ISTACK_SIZE / 2 : Nat) : Int))
            CONFIG_ISTACK_SIZE
          else p.ustack) := by
  unfold save_ustack
  by_cases h1 : p.info.flags &&& USERSTACK_PRESENT ≠ 0 <;>
  by_cases h2 : in_bounds p.info.stacks_.user = true <;>
  simp [h1, h2]

end steps

/-! ## The snapshot a capture leaves in `g_sdata` -/

section capture
variable (cfg : BoardConfig) (env : CrashEnv) (g : fullcontext_t) (currentsp : Nat)
  (rtcb : tcb_s) (filename : Option (List Nat)) (lineno : Int)

theorem crashdump_user :
    (board_crashdump cfg env g currentsp rtcb filename lineno).g_sdata.info.stacks_.user =
      { sp :=
          if u32 env.CURRENT_REGS ≠ 0
            then u32 ((memcpy_words env.mem (List.replicate cfg.XCPTCONTEXT_REGS 0)
              env.CURRENT_REGS).getD cfg.REG_R13 0)
            else u32 currentsp
        top := if rtcb.pid = 0 then sub32 cfg.g_idle_topstack 4 else u32 rtcb.adj_stack_ptr
        size :=
          if rtcb.pid = 0 then u32 cfg.CONFIG_IDLETHREAD_STACKSIZE
            else u32 rtcb.adj_stack_size } := by
  simp only [board_crashdump, save_ustack_fields, save_istack_fields, save_stack_limits_fields,
    save_stack_pointers_fields, save_context_fields, save_info_fields, memset_zero_fields]

theorem crashdump_interrupt :
    (board_crashdump cfg env g currentsp rtcb filename lineno).g_sdata.info.stacks_.interrupt =
      { sp := if u32 env.CURRENT_REGS ≠ 0 then u32 currentsp else 0
        top := u32 cfg.g_intstackbase
        size := u32 (cfg.CONFIG_ARCH_INTERRUPTSTACK &&& 0xFFFFFFFC) } := by
  simp only [board_crashdump, save_ustack_fields, save_istack_fields, save_stack_limits_fields,
    save_stack_pointers_fields, save_context_fields, save_info_fields, memset_zero_fields]

theorem crashdump_flags :
    (board_crashdump cfg env g currentsp rtcb filename lineno).g_sdata.info.flags =
      ((if u32 env.CURRENT_REGS ≠ 0
          then REGS_PRESENT ||| USERSTACK_PRESENT ||| INTSTACK_PRESENT
          else USERSTACK_PRESENT) |||
        (if in_bounds
            (board_crashdump cfg env g currentsp rtcb filename
              lineno).g_sdata.info.stacks_.interrupt
          then 0 else INVALID_INTSTACK_PTR)) |||
        (if in_bounds
            (board_crashdump cfg env g currentsp rtcb filename lineno).g_sdata.info.stacks_.user
          then 0 else INVALID_USERSTACK_PTR) := by
  simp only [board_crashdump, save_ustack_fields, save_istack_fields, save_stack_limits_fields,
    save_stack_pointers_fields, save_context_fields, save_info_fields, memset_zero_fields,
    Nat.zero_or]

theorem crashdump_regs :
    (board_crashdump cfg env g currentsp rtcb filename lineno).g_sdata.info.regs =
      if u32 env.CURRENT_REGS ≠ 0
        then memcpy_words env.mem (List.replicate cfg.XCPTCONTEXT_REGS 0) env.CURRENT_REGS
        else List.replicate cfg.XCPTCONTEXT_REGS 0 := by
  simp only [board_crashdump, save_ustack_fields, save_istack_fields, save_stack_limits_fields,
    save_stack_pointers_fields, save_context_fields, save_info_fields, memset_zero_fields]

theorem crashdump_filename :
    (board_crashdump cfg env g currentsp rtcb filename lineno).g_sdata.info.filename =
      match filename with
      | some f =>
        strncpy (List.replicate MAX_FILE_PATH_LENGTH 0)
          (f.drop (if u32 (strlen f + 1) > MAX_FILE_PATH_LENGTH
            then sub32 (u32 (strlen f + 1)) MAX_FILE_PATH_LENGTH else 0))
          MAX_FILE_PATH_LENGTH
      | none => List.replicate MAX_FILE_PATH_LENGTH 0 := by
  simp only [board_crashdump, save_ustack_fields, save_istack_fields, save_stack_limits_fields,
    save_stack_pointers_fields, save_context_fields, save_info_fields, memset_zero_fields]

theorem crashdump_ustack :
    (board_crashdump cfg env g currentsp rtcb filename lineno).g_sdata.ustack =
      copy_reverse env.mem (List.replicate CONFIG_ISTACK_SIZE 0) 0
        (ptr_index
          (board_crashdump cfg env g currentsp rtcb filename lineno).g_sdata.info.stacks_.user.sp
          ((CONFIG_ISTACK_SIZE / 2 : Nat) : Int))
        CONFIG_ISTACK_SIZE := by
  simp only [board_crashdump, save_ustack_fields, save_istack_fields, save_stack_limits_fields,
    save_stack_pointers_fields, save_context_fields, save_info_fields, memset_zero_fields,
    Nat.zero_or]
  split_ifs <;> rename_i h <;> first
    | exact absurd (by decide) h
    | exact Eq.refl _

theorem crashdump_istack :
    (board_crashdump cfg env g currentsp rtcb filename lineno).g_sdata.istack =
      if u32 env.CURRENT_REGS ≠ 0
        then copy_reverse env.mem (List.replicate CONFIG_USTACK_SIZE 0) 0
          (ptr_index (u32 currentsp) ((CONFIG_USTACK_SIZE / 2 : Nat) : Int)) CONFIG_USTACK_SIZE
        else List.replicate CONFIG_USTACK_SIZE 0 := by
  simp only [board_crashdump, save_ustack_fields, save_istack_fields, save_stack_limits_fields,
    save_stack_pointers_fields, save_context_fields, save_info_fields, memset_zero_fields,
    Nat.zero_or]
  split_ifs with h1 h2 h3
  · rfl
  · exact absurd (by decide) h2
  · exact absurd h3 (by decide)
  · rfl

end capture

/-! ## Pointers and `copy_reverse` -/

theorem u32_lt (x : Nat) : u32 x < 2 ^ 32 := by
  unfold u32
  exact Nat.mod_lt _ (by norm_num)

theorem u32_of_lt {x : Nat} (h : x < 2 ^ 32) : u32 x = x := by
  unfold u32
  exact Nat.mod_eq_of_lt h

theorem ptr_index_lt (p : Nat) (k : Int) : ptr_index p k < 2 ^ 32 := by
  unfold ptr_index
  have h := Int.emod_lt_of_pos ((p : Int) + (WORD : Int) * k) (by norm_num : (0 : Int) < 2 ^ 32)
  have h0 := Int.emod_nonneg ((p : Int) + (WORD : Int) * k) (by norm_num : (2 ^ 32 : Int) ≠ 0)
  omega

theorem ptr_dec_ptr_index (p : Nat) (k : Int) : ptr_dec (ptr_index p k) = ptr_index p (k - 1) := by
  unfold ptr_dec ptr_index WORD
  have h0 :=
    Int.emod_nonneg ((p : Int) + ((4 : Nat) : Int) * k) (by norm_num : (2 ^ 32 : Int) ≠ 0)
  rw [Int.toNat_of_nonneg h0]
  congr 1
  norm_num
  omega

theorem copy_reverse_length (mem : Nat → Nat) :
    ∀ (size : Nat) (buf : List Nat) (dest src : Nat),
      (copy_reverse mem buf dest src size).length = buf.length := by
  intro size
  induction size with
  | zero => intro buf dest src; rfl
  | succ n ih =>
    intro buf dest src
    rw [copy_reverse, ih, List.length_set]

theorem copy_reverse_getElem? (mem : Nat → Nat) (p : Nat) :
    ∀ (size : Nat) (buf : List Nat) (dest : Nat) (k : Int) (j : Nat),
      dest + size ≤ buf.length →
      (copy_reverse mem buf dest (ptr_index p k) size)[j]? =
        if dest ≤ j ∧ j < dest + size
          then some (deref mem (ptr_index p (k - ((j - dest : Nat) : Int))))
          else buf[j]? := by
  intro size
  induction size with
  | zero =>
    intro buf dest k j _
    have : ¬ (dest ≤ j ∧ j < dest + 0) := by omega
    rw [copy_reverse, if_neg this]
  | succ n ih =>
    intro buf dest k j hlen
    rw [copy_reverse, ptr_dec_ptr_index, ih _ _ _ _ (by rw [List.length_set]; omega)]
    by_cases hj : j = dest
    · subst hj
      have h1 : ¬ (j + 1 ≤ j ∧ j < j + 1 + n) := by omega
      have h2 : j ≤ j ∧ j < j + (n + 1) := by omega
      rw [if_neg h1, if_pos h2, List.getElem?_set_self (by omega)]
      simp
    · by_cases hin : dest + 1 ≤ j ∧ j < dest + 1 + n
      · have h2 : dest ≤ j ∧ j < dest + (n + 1) := by omega
        rw [if_pos hin, if_pos h2]
        congr 3
        omega
      · have h2 : ¬ (dest ≤ j ∧ j < dest + (n + 1)) := by omega
        rw [if_neg hin, if_neg h2, List.getElem?_set_ne (Ne.symm hj)]

/-! ## The test of a stack pointer -/

theorem sub32_lt (a b : Nat) : sub32 a b < 2 ^ 32 := by
  unfold sub32
  exact Nat.mod_lt _ (by norm_num)

theorem sub32_of_le {a b : Nat} (ha : a < 2 ^ 32) (hb : b ≤ a) : sub32 a b = a - b := by
  unfold sub32 u32
  rw [Nat.mod_eq_of_lt ha, Nat.mod_eq_of_lt (lt_of_le_of_lt hb ha)]
  omega

theorem in_bounds_iff (s : _stack_t) :
    in_bounds s = true ↔ s.sp ≤ s.top ∧ sub32 s.top s.size < s.sp := by
  unfold in_bounds
  simp

theorem in_bounds_iff_of_le (s : _stack_t) (htop : s.top < 2 ^ 32) (h : s.size ≤ s.top) :
    in_bounds s = true ↔ s.top - s.size < s.sp ∧ s.sp ≤ s.top := by
  rw [in_bounds_iff, sub32_of_le htop h]
  exact And.comm

section capture
variable (cfg : BoardConfig) (env : CrashEnv) (g : fullcontext_t) (currentsp : Nat)
  (rtcb : tcb_s) (filename : Option (List Nat)) (lineno : Int)

theorem crashdump_recorded_lt (k : StackKind) :
    (k.recorded (board_crashdump cfg env g currentsp rtcb filename lineno).g_sdata).sp < 2 ^ 32 ∧
      (k.recorded (board_crashdump cfg env g currentsp rtcb filename lineno).g_sdata).top
        < 2 ^ 32 ∧
      (k.recorded (board_crashdump cfg env g currentsp rtcb filename lineno).g_sdata).size
        < 2 ^ 32 := by
  cases k
  · simp only [StackKind.recorded, crashdump_user]
    refine ⟨?_, ?_, ?_⟩ <;> split_ifs <;> exact u32_lt _
  · simp only [StackKind.recorded, crashdump_interrupt]
    refine ⟨?_, u32_lt _, u32_lt _⟩
    split_ifs
    · exact u32_lt _
    · norm_num

theorem crashdump_invalid_flag (k : StackKind) :
    flag_set (board_crashdump cfg env g currentsp rtcb filename lineno).g_sdata.info.flags
        k.INVALID_PTR ↔
      in_bounds (k.recorded (board_crashdump cfg env g currentsp rtcb filename lineno).g_sdata)
        = false := by
  rw [crashdump_flags]
  cases k <;> simp only [StackKind.recorded, StackKind.INVALID_PTR, flag_set] <;>
    split_ifs <;> simp_all <;> decide

end capture

/-- C1. For every capture and each stack kind whose recorded limits satisfy `size <= top`,
the INVALID flag of the kind is set in the flags of the snapshot if and only if not
`top - size < sp <= top`, for the `sp`, `top` and `size` recorded for the kind.  With a
stack of at least one byte, `sp = top` and `sp = top - size + 1` are not flagged;
`sp = top + 1` and `sp = top - size` are flagged. -/
theorem C1_invalid_flag_iff_out_of_bounds (cfg : BoardConfig) (env : CrashEnv)
    (g : fullcontext_t) (currentsp : Nat) (rtcb : tcb_s) (filename : Option (List Nat))
    (lineno : Int) (k : StackKind) :
    let d := (board_crashdump cfg env g currentsp rtcb filename lineno).g_sdata
    let s := k.recorded d
    s.size ≤ s.top →
      (flag_set d.info.flags k.INVALID_PTR ↔ ¬ (s.top - s.size < s.sp ∧ s.sp ≤ s.top)) ∧
      (0 < s.size → s.sp = s.top → ¬ flag_set d.info.flags k.INVALID_PTR) ∧
      (0 < s.size → s.sp = s.top - s.size + 1 → ¬ flag_set d.info.flags k.INVALID_PTR) ∧
      (s.sp = s.top + 1 → flag_set d.info.flags k.INVALID_PTR) ∧
      (s.sp = s.top - s.size → flag_set d.info.flags k.INVALID_PTR) := by
  intro d s hle
  have hlt := (crashdump_recorded_lt cfg env g currentsp rtcb filename lineno k).2.1
  have hiff : flag_set d.info.flags k.INVALID_PTR ↔
      ¬ (s.top - s.size < s.sp ∧ s.sp ≤ s.top) := by
    rw [crashdump_invalid_flag, ← in_bounds_iff_of_le s hlt hle]
    simp
  refine ⟨hiff, ?_, ?_, ?_, ?_⟩
  · intro h0 h1
    rw [hiff]
    omega
  · intro h0 h1
    rw [hiff]
    omega
  · intro h1
    rw [hiff]
    omega
  · intro h1
    rw [hiff]
    omega

/-- C1, at a capture in task context with `sp = top` for the user stack. -/
theorem C1_invalid_flag_iff_out_of_bounds_witness :
    ¬ flag_set (board_crashdump exampleConfig taskEnv staleBuffer 0x20000200 task5 none
      12).g_sdata.info.flags INVALID_USERSTACK_PTR :=
  (C1_invalid_flag_iff_out_of_bounds exampleConfig taskEnv staleBuffer 0x20000200 task5 none
    12 StackKind.user (by decide)).2.1 (by decide) (by decide)

/-! ## The stack windows -/

theorem deref_addressMemory (a : Nat) (h : a < 2 ^ 32) : deref addressMemory a = a := by
  unfold deref addressMemory
  rw [u32_of_lt h, u32_of_lt h]

theorem ptr_index_of_nonneg (p : Nat) (k : Int) (h0 : 0 ≤ (p : Int) + 4 * k)
    (h1 : (p : Int) + 4 * k < 2 ^ 32) : ((ptr_index p k : Nat) : Int) = (p : Int) + 4 * k := by
  unfold ptr_index WORD
  rw [Int.toNat_of_nonneg (Int.emod_nonneg _ (by norm_num))]
  exact Int.emod_eq_of_lt h0 h1

section capture
variable (cfg : BoardConfig) (env : CrashEnv) (g : fullcontext_t) (currentsp : Nat)
  (rtcb : tcb_s) (filename : Option (List Nat)) (lineno : Int)

theorem crashdump_ustack_getElem? (i : Nat) (hi : i < CONFIG_ISTACK_SIZE) :
    (board_crashdump cfg env g currentsp rtcb filename lineno).g_sdata.ustack[i]? =
      some (deref env.mem (ptr_index
        (board_crashdump cfg env g currentsp rtcb filename lineno).g_sdata.info.stacks_.user.sp
        (((CONFIG_ISTACK_SIZE / 2 : Nat) : Int) - (i : Int)))) := by
  rw [crashdump_ustack, copy_reverse_getElem? _ _ _ _ _ _ _ (by simp)]
  rw [if_pos ⟨Nat.zero_le _, by omega⟩]
  rfl

theorem crashdump_istack_getElem? (h : u32 env.CURRENT_REGS ≠ 0) (i : Nat)
    (hi : i < CONFIG_USTACK_SIZE) :
    (board_crashdump cfg env g currentsp rtcb filename lineno).g_sdata.istack[i]? =
      some (deref env.mem (ptr_index
        (board_crashdump cfg env g currentsp rtcb filename
          lineno).g_sdata.info.stacks_.interrupt.sp
        (((CONFIG_USTACK_SIZE / 2 : Nat) : Int) - (i : Int)))) := by
  rw [crashdump_istack, crashdump_interrupt, if_pos h, if_pos h,
    copy_reverse_getElem? _ _ _ _ _ _ _ (by simp)]
  rw [if_pos ⟨Nat.zero_le _, by omega⟩]
  rfl

theorem crashdump_ustack_length :
    (board_crashdump cfg env g currentsp rtcb filename lineno).g_sdata.ustack.length =
      CONFIG_ISTACK_SIZE := by
  rw [crashdump_ustack, copy_reverse_length, List.length_replicate]

theorem crashdump_istack_length :
    (board_crashdump cfg env g currentsp rtcb filename lineno).g_sdata.istack.length =
      CONFIG_USTACK_SIZE := by
  rw [crashdump_istack]
  split_ifs
  · rw [copy_reverse_length, List.length_replicate]
  · rw [List.length_replicate]

end capture

/-! ## Claims on the stack windows -/

/-- C2, as amended. For every memory content and every recorded stack pointer `sp`, the
window of `N = 800` words filled by `copy_reverse` holds at index `i` the word at address
`sp + (N/2 - i) * 4` modulo `2^32`, for every `0 <= i < N`: the `N` words of the byte
addresses `[sp - (N/2 - 1) * 4, sp + (N/2 + 1) * 4)`, the word index `k` from `-(N/2 - 1)`
to `N/2` being found at `N/2 - k`, in an order reversed relative to the memory address.
This holds of the user window in every capture and of the interrupt window in every
capture with an active register save area. -/
theorem C2_window_is_reversed_slice (cfg : BoardConfig) (env : CrashEnv) (g : fullcontext_t)
    (currentsp : Nat) (rtcb : tcb_s) (filename : Option (List Nat)) (lineno : Int) :
    let d := (board_crashdump cfg env g currentsp rtcb filename lineno).g_sdata
    d.ustack.length = 800 ∧
      (∀ i : Nat, i < 800 →
        d.ustack[i]? =
          some (deref env.mem (ptr_index d.info.stacks_.user.sp (400 - (i : Int))))) ∧
      (∀ k : Int, -399 ≤ k → k ≤ 400 →
        d.ustack[(400 - k).toNat]? =
          some (deref env.mem (ptr_index d.info.stacks_.user.sp k))) ∧
      d.istack.length = 800 ∧
      (u32 env.CURRENT_REGS ≠ 0 → ∀ i : Nat, i < 800 →
        d.istack[i]? =
          some (deref env.mem (ptr_index d.info.stacks_.interrupt.sp (400 - (i : Int))))) := by
  intro d
  have hu : ∀ i : Nat, i < 800 →
      d.ustack[i]? =
        some (deref env.mem (ptr_index d.info.stacks_.user.sp (400 - (i : Int)))) :=
    fun i hi => crashdump_ustack_getElem? cfg env g currentsp rtcb filename lineno i hi
  refine ⟨crashdump_ustack_length cfg env g currentsp rtcb filename lineno, hu, ?_,
    crashdump_istack_length cfg env g currentsp rtcb filename lineno, ?_⟩
  · intro k h1 h2
    rw [hu _ (by omega)]
    congr 3
    omega
  · intro h i hi
    exact crashdump_istack_getElem? cfg env g currentsp rtcb filename lineno h i hi

/-- C2 at a capture in interrupt context: the first word of the interrupt window. -/
theorem C2_window_is_reversed_slice_witness :
    (board_crashdump exampleConfig interruptEnv staleBuffer 0x20000100 task5 none
      12).g_sdata.istack[0]? =
      some (deref interruptEnv.mem (ptr_index
        (board_crashdump exampleConfig interruptEnv staleBuffer 0x20000100 task5 none
          12).g_sdata.info.stacks_.interrupt.sp (400 - ((0 : Nat) : Int)))) :=
  (C2_window_is_reversed_slice exampleConfig interruptEnv staleBuffer 0x20000100 task5 none
    12).2.2.2.2 (by decide) 0 (by decide)

/-- C2 as stated fails: with a memory in which every word holds its own address and
`sp = 0x20000100`, the first word of the user window is the word at `sp + 1600`, of value
`0x20000740`, and not the word at `sp + (N/2 - 1) * 4 = sp + 1596`, of value `0x2000073C`;
so the window is not the words at `sp + (N/2 - 1 - i) * 4`. -/
theorem C2_counterexample :
    (board_crashdump exampleConfig taskEnv staleBuffer 0x20000100 task5 none
        12).g_sdata.ustack[0]? = some 0x20000740 ∧
      deref taskEnv.mem (ptr_index 0x20000100 (400 - 1 - 0)) = 0x2000073C ∧
      ¬ (∀ i : Nat, i < 800 →
        (board_crashdump exampleConfig taskEnv staleBuffer 0x20000100 task5 none
          12).g_sdata.ustack[i]? =
          some (deref taskEnv.mem (ptr_index
            (board_crashdump exampleConfig taskEnv staleBuffer 0x20000100 task5 none
              12).g_sdata.info.stacks_.user.sp (400 - 1 - (i : Int))))) := by
  have h0 := crashdump_ustack_getElem? exampleConfig taskEnv staleBuffer 0x20000100 task5 none
    12 0 (by decide)
  have hsp : (board_crashdump exampleConfig taskEnv staleBuffer 0x20000100 task5 none
      12).g_sdata.info.stacks_.user.sp = 0x20000100 := by decide
  rw [hsp] at h0
  have e1 : deref taskEnv.mem (ptr_index 0x20000100
      (((CONFIG_ISTACK_SIZE / 2 : Nat) : Int) - ((0 : Nat) : Int))) = 0x20000740 := by decide
  have e2 : deref taskEnv.mem (ptr_index 0x20000100 (400 - 1 - 0)) = 0x2000073C := by decide
  rw [e1] at h0
  refine ⟨h0, e2, ?_⟩
  intro h
  have h1 := h 0 (by decide)
  rw [hsp, h0] at h1
  have e3 : deref taskEnv.mem (ptr_index 0x20000100 (400 - 1 - ((0 : Nat) : Int)))
      = 0x2000073C := by decide
  rw [e3] at h1
  exact absurd h1 (by decide)

/-- C3, as amended. For every memory content and every recorded stack pointer `sp` whose
window of `N = 800` words does not wrap around the 32-bit address space, the first half of
the user window (indices `0 .. N/2 - 1`) holds only words read from addresses strictly
above `sp`, the word of index `i` from `sp + (N/2 - i) * 4`; index `N/2` holds the word at
`sp`; and the rest of the second half (indices `N/2 + 1 .. N - 1`) holds words read from
addresses strictly below `sp`, the word of index `i` from `sp - (i - N/2) * 4`. -/
theorem C3_window_halves (cfg : BoardConfig) (env : CrashEnv) (g : fullcontext_t)
    (currentsp : Nat) (rtcb : tcb_s) (filename : Option (List Nat)) (lineno : Int) :
    let d := (board_crashdump cfg env g currentsp rtcb filename lineno).g_sdata
    let sp := d.info.stacks_.user.sp
    4 * 399 ≤ sp → sp + 4 * 400 < 2 ^ 32 →
      (∀ i : Nat, i < 400 →
        sp < sp + 4 * (400 - i) ∧ d.ustack[i]? = some (deref env.mem (sp + 4 * (400 - i)))) ∧
      d.ustack[400]? = some (deref env.mem sp) ∧
      (∀ i : Nat, 400 < i → i < 800 →
        sp - 4 * (i - 400) < sp ∧ d.ustack[i]? = some (deref env.mem (sp - 4 * (i - 400)))) := by
  intro d sp hlo hhi
  have hu : ∀ i : Nat, i < 800 →
      d.ustack[i]? = some (deref env.mem (ptr_index sp (400 - (i : Int)))) :=
    fun i hi => crashdump_ustack_getElem? cfg env g currentsp rtcb filename lineno i hi
  have hp : ∀ (i a : Nat), i < 800 → (a : Int) = (sp : Int) + 4 * (400 - (i : Int)) →
      ptr_index sp (400 - (i : Int)) = a := by
    intro i a hi ha
    have h := ptr_index_of_nonneg sp (400 - (i : Int)) (by omega) (by omega)
    omega
  refine ⟨?_, ?_, ?_⟩
  · intro i hi
    refine ⟨by omega, ?_⟩
    rw [hu i (by omega), hp i (sp + 4 * (400 - i)) (by omega) (by omega)]
  · rw [hu 400 (by omega), hp 400 sp (by omega) (by omega)]
  · intro i h1 h2
    refine ⟨by omega, ?_⟩
    rw [hu i h2, hp i (sp - 4 * (i - 400)) h2 (by omega)]

/-- C3 at a capture in task context with `sp = 0x20000100`: the first word of the window
is read from above `sp`. -/
theorem C3_window_halves_witness :
    (board_crashdump exampleConfig taskEnv staleBuffer 0x20000100 task5 none
        12).g_sdata.info.stacks_.user.sp <
      (board_crashdump exampleConfig taskEnv staleBuffer 0x20000100 task5 none
        12).g_sdata.info.stacks_.user.sp + 4 * (400 - 0) :=
  ((C3_window_halves exampleConfig taskEnv staleBuffer 0x20000100 task5 none 12
    (by decide) (by decide)).1 0 (by decide)).1

/-- C3 as stated fails: with a memory in which every word holds its own address and
`sp = 0x20000100`, the first word of the user window has the value `0x20000740`, which no
address strictly below `sp` holds; the first half is not made of words read from below
`sp`. -/
theorem C3_counterexample :
    ¬ (∀ i : Nat, i < 400 → ∃ a : Nat, a < 0x20000100 ∧
      (board_crashdump exampleConfig taskEnv staleBuffer 0x20000100 task5 none
        12).g_sdata.ustack[i]? = some (deref taskEnv.mem a)) := by
  intro h
  obtain ⟨a, ha, h1⟩ := h 0 (by decide)
  have h0 := crashdump_ustack_getElem? exampleConfig taskEnv staleBuffer 0x20000100 task5 none
    12 0 (by decide)
  have hsp : (board_crashdump exampleConfig taskEnv staleBuffer 0x20000100 task5 none
      12).g_sdata.info.stacks_.user.sp = 0x20000100 := by decide
  rw [hsp] at h0
  have e1 : deref taskEnv.mem (ptr_index 0x20000100
      (((CONFIG_ISTACK_SIZE / 2 : Nat) : Int) - ((0 : Nat) : Int))) = 0x20000740 := by decide
  rw [e1] at h0
  rw [h0] at h1
  have e2 : deref taskEnv.mem a = a := deref_addressMemory a (by omega)
  rw [e2] at h1
  have : a = 0x20000740 := (Option.some.inj h1).symm
  omega

/-! ## Claims on the context of the fault -/

theorem u32_u32 (x : Nat) : u32 (u32 x) = u32 x := u32_of_lt (u32_lt x)

theorem deref_lt (mem : Nat → Nat) (p : Nat) : deref mem p < 2 ^ 32 := u32_lt _

theorem memcpy_words_length (mem : Nat → Nat) (dest : List Nat) (src : Nat) :
    (memcpy_words mem dest src).length = dest.length := by
  simp [memcpy_words]

theorem memcpy_words_getElem? (mem : Nat → Nat) (dest : List Nat) (src i : Nat)
    (hi : i < dest.length) :
    (memcpy_words mem dest src)[i]? = some (deref mem (ptr_index src (i : Int))) := by
  simp [memcpy_words, hi]

theorem not_in_bounds_of_sp_zero (s : _stack_t) (h : s.sp = 0) : in_bounds s = false := by
  unfold in_bounds
  simp [h]

/-- C4, as amended. For every capture in which no interrupt register save area is active
and the passed-in `sp` satisfies `top - size < sp <= top` for the resolved user stack
limits (`top - size` as the 32-bit value the code computes), the flags of the snapshot
have USERSTACK_PRESENT set, REGS_PRESENT, INTSTACK_PRESENT and INVALID_USERSTACK_PTR unset,
and INVALID_INTSTACK_PTR set: the interrupt stack pointer, left zero, is tested whether
or not the interrupt stack is present.  The recorded user stack pointer is the passed-in
`sp`. -/
theorem C4_task_context_flags (cfg : BoardConfig) (env : CrashEnv) (g : fullcontext_t)
    (currentsp : Nat) (rtcb : tcb_s) (filename : Option (List Nat)) (lineno : Int)
    (hregs : u32 env.CURRENT_REGS = 0)
    (hlow : sub32
        (board_crashdump cfg env g currentsp rtcb filename lineno).g_sdata.info.stacks_.user.top
        (board_crashdump cfg env g currentsp rtcb filename lineno).g_sdata.info.stacks_.user.size
      < u32 currentsp)
    (hhigh : u32 currentsp ≤
      (board_crashdump cfg env g currentsp rtcb filename lineno).g_sdata.info.stacks_.user.top) :
    flag_set (board_crashdump cfg env g currentsp rtcb filename lineno).g_sdata.info.flags
        USERSTACK_PRESENT ∧
      ¬ flag_set (board_crashdump cfg env g currentsp rtcb filename lineno).g_sdata.info.flags
        REGS_PRESENT ∧
      ¬ flag_set (board_crashdump cfg env g currentsp rtcb filename lineno).g_sdata.info.flags
        INTSTACK_PRESENT ∧
      ¬ flag_set (board_crashdump cfg env g currentsp rtcb filename lineno).g_sdata.info.flags
        INVALID_USERSTACK_PTR ∧
      flag_set (board_crashdump cfg env g currentsp rtcb filename lineno).g_sdata.info.flags
        INVALID_INTSTACK_PTR ∧
      (board_crashdump cfg env g currentsp rtcb filename lineno).g_sdata.info.flags =
        USERSTACK_PRESENT ||| INVALID_INTSTACK_PTR ∧
      (board_crashdump cfg env g currentsp rtcb filename lineno).g_sdata.info.stacks_.user.sp =
        u32 currentsp := by
  have hsp : (board_crashdump cfg env g currentsp rtcb filename
      lineno).g_sdata.info.stacks_.user.sp = u32 currentsp := by
    rw [crashdump_user]
    simp [hregs]
  have hisp : (board_crashdump cfg env g currentsp rtcb filename
      lineno).g_sdata.info.stacks_.interrupt.sp = 0 := by
    rw [crashdump_interrupt]
    simp [hregs]
  have hu : in_bounds (board_crashdump cfg env g currentsp rtcb filename
      lineno).g_sdata.info.stacks_.user = true := by
    rw [in_bounds_iff, hsp]
    exact ⟨hhigh, hlow⟩
  have hi := not_in_bounds_of_sp_zero _ hisp
  have hflags : (board_crashdump cfg env g currentsp rtcb filename lineno).g_sdata.info.flags =
      USERSTACK_PRESENT ||| INVALID_INTSTACK_PTR := by
    rw [crashdump_flags, hu, hi]
    simp [hregs]
  rw [hflags]
  exact ⟨by decide, by decide, by decide, by decide, by decide, rfl, hsp⟩

/-- C4 at task id 5 with `sp = 0x20000180`, `top = 0x20000200`, `size = 0x100`. -/
theorem C4_task_context_flags_witness :
    (board_crashdump exampleConfig taskEnv staleBuffer 0x20000180 task5 none
        12).g_sdata.info.flags = USERSTACK_PRESENT ||| INVALID_INTSTACK_PTR :=
  (C4_task_context_flags exampleConfig taskEnv staleBuffer 0x20000180 task5 none 12
    (by decide) (by decide) (by decide)).2.2.2.2.2.1

/-- C4 as stated fails: for task id 5 in task context with `top = 0x20000200` and
`size = 0x100`, the capture at `sp = 0x20000180`, inside the limits, has
INVALID_INTSTACK_PTR set although INTSTACK_PRESENT is not (flags `0x42`); and at the
`sp = 0x20000100` the claim names, which is `top - size` and outside the limits, both
INVALID flags are set (flags `0x62`). -/
theorem C4_counterexample :
    u32 taskEnv.CURRENT_REGS = 0 ∧
      (board_crashdump exampleConfig taskEnv staleBuffer 0x20000180 task5 none
        12).g_sdata.info.stacks_.user = ⟨0x20000180, 0x20000200, 0x100⟩ ∧
      (board_crashdump exampleConfig taskEnv staleBuffer 0x20000180 task5 none
        12).g_sdata.info.flags = 0x42 ∧
      flag_set (board_crashdump exampleConfig taskEnv staleBuffer 0x20000180 task5 none
        12).g_sdata.info.flags INVALID_INTSTACK_PTR ∧
      ¬ flag_set (board_crashdump exampleConfig taskEnv staleBuffer 0x20000180 task5 none
        12).g_sdata.info.flags INTSTACK_PRESENT ∧
      (board_crashdump exampleConfig taskEnv staleBuffer 0x20000100 task5 none
        12).g_sdata.info.stacks_.user = ⟨0x20000100, 0x20000200, 0x100⟩ ∧
      (board_crashdump exampleConfig taskEnv staleBuffer 0x20000100 task5 none
        12).g_sdata.info.flags = 0x62 := by
  decide

/-- C5. For every capture in which an interrupt register save area is active, the flags
of the snapshot contain REGS_PRESENT, USERSTACK_PRESENT and INTSTACK_PRESENT; the register
block is, word for word, the `XCPTCONTEXT_REGS` words of the save area; the recorded user
stack pointer is word `REG_R13` of the save area, whatever the passed-in `sp`; and the
recorded interrupt stack pointer is the passed-in `sp`. -/
theorem C5_interrupt_context_capture (cfg : BoardConfig) (env : CrashEnv) (g : fullcontext_t)
    (currentsp : Nat) (rtcb : tcb_s) (filename : Option (List Nat)) (lineno : Int)
    (hregs : u32 env.CURRENT_REGS ≠ 0) (hr13 : cfg.REG_R13 < cfg.XCPTCONTEXT_REGS) :
    flag_set (board_crashdump cfg env g currentsp rtcb filename lineno).g_sdata.info.flags
        REGS_PRESENT ∧
      flag_set (board_crashdump cfg env g currentsp rtcb filename lineno).g_sdata.info.flags
        USERSTACK_PRESENT ∧
      flag_set (board_crashdump cfg env g currentsp rtcb filename lineno).g_sdata.info.flags
        INTSTACK_PRESENT ∧
      (board_crashdump cfg env g currentsp rtcb filename lineno).g_sdata.info.regs.length =
        cfg.XCPTCONTEXT_REGS ∧
      (∀ i : Nat, i < cfg.XCPTCONTEXT_REGS →
        (board_crashdump cfg env g currentsp rtcb filename lineno).g_sdata.info.regs[i]? =
          some (deref env.mem (ptr_index env.CURRENT_REGS (i : Int)))) ∧
      (∀ sp : Nat,
        (board_crashdump cfg env g sp rtcb filename lineno).g_sdata.info.stacks_.user.sp =
          deref env.mem (ptr_index env.CURRENT_REGS (cfg.REG_R13 : Int))) ∧
      (board_crashdump cfg env g currentsp rtcb filename
          lineno).g_sdata.info.stacks_.interrupt.sp = u32 currentsp := by
  have hflags : ∃ a b : Nat, (a = 0 ∨ a = INVALID_INTSTACK_PTR) ∧
      (b = 0 ∨ b = INVALID_USERSTACK_PTR) ∧
      (board_crashdump cfg env g currentsp rtcb filename lineno).g_sdata.info.flags =
        ((REGS_PRESENT ||| USERSTACK_PRESENT ||| INTSTACK_PRESENT) ||| a) ||| b := by
    rw [crashdump_flags, if_pos hregs]
    refine ⟨_, _, ?_, ?_, rfl⟩ <;> split_ifs <;> simp
  obtain ⟨a, b, ha, hb, hf⟩ := hflags
  rw [hf]
  refine ⟨?_, ?_, ?_, ?_, ?_, ?_, ?_⟩
  · rcases ha with rfl | rfl <;> rcases hb with rfl | rfl <;> decide
  · rcases ha with rfl | rfl <;> rcases hb with rfl | rfl <;> decide
  · rcases ha with rfl | rfl <;> rcases hb with rfl | rfl <;> decide
  · rw [crashdump_regs, if_pos hregs, memcpy_words_length, List.length_replicate]
  · intro i hi
    rw [crashdump_regs, if_pos hregs, memcpy_words_getElem? _ _ _ _ (by simpa using hi)]
  · intro sp
    rw [crashdump_user]
    simp only [if_pos hregs]
    rw [List.getD_eq_getElem?_getD,
      memcpy_words_getElem? _ _ _ _ (by simpa using hr13)]
    exact u32_of_lt (deref_lt _ _)
  · rw [crashdump_interrupt]
    simp only [if_pos hregs]

/-- C5 at a capture with the register save area at `0x20003000`, in a memory in which
every word holds its own address: the recorded user stack pointer is the saved one. -/
theorem C5_interrupt_context_capture_witness :
    (board_crashdump exampleConfig interruptEnv staleBuffer 0x20000100 task5 none
        12).g_sdata.info.stacks_.user.sp =
      deref interruptEnv.mem (ptr_index interruptEnv.CURRENT_REGS (exampleConfig.REG_R13 : Int)) :=
  (C5_interrupt_context_capture exampleConfig interruptEnv staleBuffer 0x20000100 task5 none 12
    (by decide) (by decide)).2.2.2.2.2.1 0x20000100

/-! ## The file name and the result of the save -/

theorem cstr_of_no_nul (s : List Nat) (h : ∀ c ∈ s, c ≠ 0) : cstr s = s := by
  unfold cstr
  rw [List.takeWhile_eq_self_iff]
  intro c hc
  simpa using h c hc

theorem cstr_append_nul (s t : List Nat) (h : ∀ c ∈ s, c ≠ 0) : cstr (s ++ 0 :: t) = s := by
  induction s with
  | nil => simp [cstr]
  | cons a s ih =>
    have ha : a ≠ 0 := h a (List.mem_cons_self a s)
    have hs : ∀ c ∈ s, c ≠ 0 := fun c hc => h c (List.mem_cons_of_mem a hc)
    have ih2 := ih hs
    unfold cstr at ih2 ⊢
    simp [List.takeWhile_cons, ha, ih2]

theorem strncpy_of_short (dest s : List Nat) (n : Nat) (h : ∀ c ∈ s, c ≠ 0)
    (hlen : s.length ≤ n) :
    strncpy dest s n = s ++ List.replicate (n - s.length) 0 ++ dest.drop n := by
  unfold strncpy
  rw [cstr_of_no_nul s h]
  simp [List.take_of_length_le hlen]

/-- C6. For every source file name `s` (its characters, none of them NUL) of length `L`
that fits the 32-bit address space and the capacity `C = MAX_FILE_PATH_LENGTH = 40` of the
field: if `L + 1 <= C` the stored field is `s` followed by NUL bytes up to `C`; if
`L + 1 > C` it is the last `C - 1` characters of `s` followed by one NUL.  The field has `C`
bytes, the string stored in it is a suffix of `s`, ends inside the field, and is `s`
whenever `s` fits. -/
theorem C6_filename_tail_truncation (cfg : BoardConfig) (env : CrashEnv) (g : fullcontext_t)
    (currentsp : Nat) (rtcb : tcb_s) (s : List Nat) (lineno : Int)
    (hs : ∀ c ∈ s, c ≠ 0) (hfit : s.length + 1 < 2 ^ 32) :
    let field := (board_crashdump cfg env g currentsp rtcb (some s) lineno).g_sdata.info.filename
    (s.length + 1 ≤ MAX_FILE_PATH_LENGTH →
        field = s ++ List.replicate (MAX_FILE_PATH_LENGTH - s.length) 0) ∧
      (s.length + 1 > MAX_FILE_PATH_LENGTH →
        field = s.drop (s.length - (MAX_FILE_PATH_LENGTH - 1)) ++ [0]) ∧
      field.length = MAX_FILE_PATH_LENGTH ∧
      cstr field <:+ s ∧
      strlen field < MAX_FILE_PATH_LENGTH ∧
      (s.length + 1 ≤ MAX_FILE_PATH_LENGTH → cstr field = s) := by
  intro field
  have hlen : strlen s = s.length := by
    unfold strlen
    rw [cstr_of_no_nul s hs]
  have hfield : field =
      strncpy (List.replicate MAX_FILE_PATH_LENGTH 0)
        (s.drop (if u32 (strlen s + 1) > MAX_FILE_PATH_LENGTH
          then sub32 (u32 (strlen s + 1)) MAX_FILE_PATH_LENGTH else 0))
        MAX_FILE_PATH_LENGTH :=
    crashdump_filename cfg env g currentsp rtcb (some s) lineno
  rw [hlen, u32_of_lt hfit] at hfield
  have hshort : s.length + 1 ≤ MAX_FILE_PATH_LENGTH →
      field = s ++ List.replicate (MAX_FILE_PATH_LENGTH - s.length) 0 := by
    intro h
    rw [hfield, if_neg (by omega), List.drop_zero, strncpy_of_short _ _ _ hs (by omega)]
    simp
  have hlong : s.length + 1 > MAX_FILE_PATH_LENGTH →
      field = s.drop (s.length - (MAX_FILE_PATH_LENGTH - 1)) ++ [0] := by
    intro h
    have hoff : sub32 (s.length + 1) MAX_FILE_PATH_LENGTH =
        s.length - (MAX_FILE_PATH_LENGTH - 1) := by
      rw [sub32_of_le hfit (by omega)]
      unfold MAX_FILE_PATH_LENGTH at h ⊢
      omega
    have hdrop : ∀ c ∈ s.drop (s.length - (MAX_FILE_PATH_LENGTH - 1)), c ≠ 0 :=
      fun c hc => hs c (List.mem_of_mem_drop hc)
    have hdl : (s.drop (s.length - (MAX_FILE_PATH_LENGTH - 1))).length =
        MAX_FILE_PATH_LENGTH - 1 := by
      rw [List.length_drop]
      unfold MAX_FILE_PATH_LENGTH at h ⊢
      omega
    rw [hfield, if_pos h, hoff, strncpy_of_short _ _ _ hdrop (by rw [hdl]; omega), hdl]
    simp [MAX_FILE_PATH_LENGTH]
  by_cases hc : s.length + 1 ≤ MAX_FILE_PATH_LENGTH
  · have hf := hshort hc
    have hpos : MAX_FILE_PATH_LENGTH - s.length = (MAX_FILE_PATH_LENGTH - s.length - 1) + 1 := by
      omega
    have hcs : cstr field = s := by
      rw [hf, hpos, List.replicate_succ, cstr_append_nul _ _ hs]
    refine ⟨hshort, hlong, ?_, ?_, ?_, fun _ => hcs⟩
    · rw [hf, List.length_append, List.length_replicate]
      omega
    · rw [hcs]
    · unfold strlen
      rw [hcs]
      omega
  · have hf := hlong (by omega)
    have hdrop : ∀ c ∈ s.drop (s.length - (MAX_FILE_PATH_LENGTH - 1)), c ≠ 0 :=
      fun c hc => hs c (List.mem_of_mem_drop hc)
    have hcs : cstr field = s.drop (s.length - (MAX_FILE_PATH_LENGTH - 1)) := by
      rw [hf, cstr_append_nul _ _ hdrop]
    refine ⟨hshort, hlong, ?_, ?_, ?_, fun h => absurd h hc⟩
    · rw [hf, List.length_append, List.length_drop]
      unfold MAX_FILE_PATH_LENGTH at hc ⊢
      simp
      omega
    · rw [hcs]
      exact List.drop_suffix _ _
    · unfold strlen
      rw [hcs, List.length_drop]
      unfold MAX_FILE_PATH_LENGTH at hc ⊢
      omega

/-- C6 at a file name of 50 characters, the bytes 1 to 50: the field holds the last 39. -/
theorem C6_filename_tail_truncation_witness :
    (board_crashdump exampleConfig taskEnv staleBuffer 0x20000180 task5
        (some longFileName) 12).g_sdata.info.filename =
      longFileName.drop (longFileName.length - (MAX_FILE_PATH_LENGTH - 1)) ++ [0] :=
  (C6_filename_tail_truncation exampleConfig taskEnv staleBuffer 0x20000180 task5
    longFileName 12 (by decide) (by decide)).2.1 (by decide)

theorem lowputc_string_eq (dead out : List Char) : lowputc_string dead out = out ++ dead := by
  induction dead generalizing out with
  | nil => simp [lowputc_string]
  | cons c dead ih => simp [lowputc_string, ih]

/-- C7. For every result `rv` of the save operation during a capture, the characters
written with `up_lowputc` are determined by `rv` alone: the characters of
"Memory wiped - dump not saved!" in order when `rv` is `-ENXIO`, the single character `!`
when `rv` is `-ENOSPC`, and none for every other `rv`.  The snapshot left by the capture
does not depend on the save operation or its result: no result makes the capture fail. -/
theorem C7_save_result_reporting (cfg : BoardConfig) (mem : Nat → Nat) (regs : Nat)
    (save : Nat → fullcontext_t → Int) (g : fullcontext_t) (currentsp : Nat) (rtcb : tcb_s)
    (filename : Option (List Nat)) (lineno : Int) :
    let r := board_crashdump cfg ⟨regs, mem, save⟩ g currentsp rtcb filename lineno
    r.rv = save HARDFAULT_FILENO r.g_sdata ∧
      r.lowputc =
        (if r.rv = - ENXIO then "Memory wiped - dump not saved!".toList
          else if r.rv = - ENOSPC then ['!'] else []) ∧
      (∀ save2 : Nat → fullcontext_t → Int,
        (board_crashdump cfg ⟨regs, mem, save2⟩ g currentsp rtcb filename lineno).g_sdata =
          r.g_sdata) := by
  intro r
  refine ⟨rfl, ?_, fun _ => rfl⟩
  show report_save r.rv = _
  unfold report_save
  rw [lowputc_string_eq]
  rfl

/-! ## The boot-time check -/

section boot
variable {σ : Type} (S : Storage σ) (st : σ)

theorem bbsram_int_of_open_failed (h : (open_outcome S st).1 < 0) :
    (stm32_bbsram_int S st).rv = - ENOENT ∧
      (stm32_bbsram_int S st).world.st = (open_outcome S st).2 ∧
      (stm32_bbsram_int S st).world.trace =
        [BootEvent.bbsraminitialize BBSRAM_PATH BSRAM_FILE_SIZES,
          BootEvent.open_file HARDFAULT_PATH O_RDONLY,
          BootEvent.syslog "stm32 bbsram: Failed to open Fault Log file [%s] (%d)\n"
            (open_outcome S st).1] := by
  have hneg : ¬ (- ENOENT ≥ OK) := by decide
  unfold open_outcome at h ⊢
  simp only [stm32_bbsram_int, hardfault_get_desc, if_pos h, if_neg hneg, World.log,
    List.singleton_append, List.cons_append, List.nil_append, and_self]

theorem bbsram_int_of_getdesc_failed (ho : 0 ≤ (open_outcome S st).1)
    (hq : (getdesc_outcome S st).1 < 0) :
    (stm32_bbsram_int S st).rv = - EIO ∧
      (stm32_bbsram_int S st).world.st = (getdesc_outcome S st).2 ∧
      (stm32_bbsram_int S st).world.trace =
        [BootEvent.bbsraminitialize BBSRAM_PATH BSRAM_FILE_SIZES,
          BootEvent.open_file HARDFAULT_PATH O_RDONLY,
          BootEvent.ioctl_getdesc (open_outcome S st).1,
          BootEvent.syslog "stm32 bbsram: Failed to get Fault Log descriptor (%d)\n"
            (getdesc_outcome S st).1] := by
  have hneg : ¬ (- EIO ≥ OK) := by decide
  have ho2 := not_lt.mpr ho
  have hq2 : ¬ ((getdesc_outcome S st).1 ≥ 0) := not_le.mpr hq
  unfold getdesc_outcome open_outcome at *
  simp only [stm32_bbsram_int, hardfault_get_desc, if_neg ho2, if_neg hq2, if_neg hneg,
    World.log, List.singleton_append, List.cons_append, List.nil_append, and_self]

theorem bbsram_int_of_record_found (ho : 0 ≤ (open_outcome S st).1)
    (hq : 0 ≤ (getdesc_outcome S st).1) :
    (stm32_bbsram_int S st).rv = (unlink_outcome S st).1 ∧
      (stm32_bbsram_int S st).world.st = (unlink_outcome S st).2 ∧
      (stm32_bbsram_int S st).world.trace =
        [BootEvent.bbsraminitialize BBSRAM_PATH BSRAM_FILE_SIZES,
          BootEvent.open_file HARDFAULT_PATH O_RDONLY,
          BootEvent.ioctl_getdesc (open_outcome S st).1,
          BootEvent.printf "There is a hard fault logged.\n",
          BootEvent.unlink HARDFAULT_PATH] ++
        (if (unlink_outcome S st).1 < 0
          then [BootEvent.syslog "stm32 bbsram: Failed to unlink Fault Log file [%s] (%d)\n"
            (unlink_outcome S st).1]
          else []) := by
  have ho2 := not_lt.mpr ho
  have ho3 : (open_outcome S st).1 ≥ OK := ho
  have hq2 : (getdesc_outcome S st).1 ≥ 0 := hq
  unfold unlink_outcome getdesc_outcome open_outcome at *
  simp only [stm32_bbsram_int, hardfault_get_desc, if_neg ho2, if_pos hq2, if_pos ho3,
    World.log, List.singleton_append, List.cons_append, List.nil_append]
  split_ifs <;> simp

/-- The three ways the boot-time check can go. -/
theorem bbsram_int_cases :
    (open_outcome S st).1 < 0 ∨
      (0 ≤ (open_outcome S st).1 ∧ (getdesc_outcome S st).1 < 0) ∨
      (0 ≤ (open_outcome S st).1 ∧ 0 ≤ (getdesc_outcome S st).1) := by
  omega

end boot

/-- C8, as amended. For every storage state in which opening the crash-record slot fails,
the boot-time check makes no descriptor query and no delete and does not report a prior
fault to the operator: it initializes the storage, tries the open and logs a diagnostic.
It leaves the storage as the failed open left it and returns `-ENOENT`, a negative
errno. -/
theorem C8_boot_check_no_record {σ : Type} (S : Storage σ) (st : σ)
    (h : (open_outcome S st).1 < 0) :
    (∀ fd : Int, BootEvent.ioctl_getdesc fd ∉ (stm32_bbsram_int S st).world.trace) ∧
      (∀ path : String, BootEvent.unlink path ∉ (stm32_bbsram_int S st).world.trace) ∧
      (∀ msg : String, BootEvent.printf msg ∉ (stm32_bbsram_int S st).world.trace) ∧
      (stm32_bbsram_int S st).world.actions =
        [BootEvent.bbsraminitialize BBSRAM_PATH BSRAM_FILE_SIZES,
          BootEvent.open_file HARDFAULT_PATH O_RDONLY] ∧
      (stm32_bbsram_int S st).world.st = (open_outcome S st).2 ∧
      (stm32_bbsram_int S st).rv = - ENOENT ∧
      (stm32_bbsram_int S st).rv < 0 := by
  obtain ⟨hrv, hst, htr⟩ := bbsram_int_of_open_failed S st h
  refine ⟨?_, ?_, ?_, ?_, hst, hrv, ?_⟩
  · intro fd
    rw [htr]
    simp
  · intro path
    rw [htr]
    simp
  · intro msg
    rw [htr]
    simp
  · rw [World.actions, htr]
    simp [BootEvent.is_diagnostic]
  · rw [hrv]
    decide

/-- C8 at an absent slot. -/
theorem C8_boot_check_no_record_witness :
    (stm32_bbsram_int (slotStorage 3 (- ENOENT) 0 0) false).rv = - ENOENT :=
  (C8_boot_check_no_record (slotStorage 3 (- ENOENT) 0 0) false (by decide)).2.2.2.2.2.1

/-- C8 as stated fails: with the slot absent the open fails and the boot-time check returns
`-2`, which is `-ENOENT` and not a non-negative status. -/
theorem C8_counterexample :
    (open_outcome (slotStorage 3 (- ENOENT) 0 0) false).1 < 0 ∧
      (stm32_bbsram_int (slotStorage 3 (- ENOENT) 0 0) false).rv = -2 ∧
      ¬ (0 ≤ (stm32_bbsram_int (slotStorage 3 (- ENOENT) 0 0) false).rv) := by
  decide

/-- C9. For every combination of outcomes of the open, the descriptor query and the
delete, the boot-time check reports "There is a hard fault logged." and attempts to delete
the crash-record slot if and only if the open succeeded and the descriptor query returned
`>= 0`.  When the open succeeds and the descriptor query fails no delete is attempted and
the storage stays as the query left it.  The delete is attempted at most once, of the
crash-record slot only; whether it succeeds or fails, the calls made and the report are the
same, the storage is left as the delete left it, and the result of the delete is the
status returned. -/
theorem C9_boot_check_deletes_iff_confirmed {σ : Type} (S : Storage σ) (st : σ) :
    (BootEvent.printf "There is a hard fault logged.\n" ∈ (stm32_bbsram_int S st).world.trace ↔
        0 ≤ (open_outcome S st).1 ∧ 0 ≤ (getdesc_outcome S st).1) ∧
      (BootEvent.unlink HARDFAULT_PATH ∈ (stm32_bbsram_int S st).world.trace ↔
        0 ≤ (open_outcome S st).1 ∧ 0 ≤ (getdesc_outcome S st).1) ∧
      (0 ≤ (open_outcome S st).1 → (getdesc_outcome S st).1 < 0 →
        (∀ path : String, BootEvent.unlink path ∉ (stm32_bbsram_int S st).world.trace) ∧
          (stm32_bbsram_int S st).world.st = (getdesc_outcome S st).2) ∧
      (stm32_bbsram_int S st).world.trace.count (BootEvent.unlink HARDFAULT_PATH) ≤ 1 ∧
      (∀ path : String, BootEvent.unlink path ∈ (stm32_bbsram_int S st).world.trace →
        path = HARDFAULT_PATH) ∧
      (0 ≤ (open_outcome S st).1 → 0 ≤ (getdesc_outcome S st).1 →
        (stm32_bbsram_int S st).world.actions =
            [BootEvent.bbsraminitialize BBSRAM_PATH BSRAM_FILE_SIZES,
              BootEvent.open_file HARDFAULT_PATH O_RDONLY,
              BootEvent.ioctl_getdesc (open_outcome S st).1,
              BootEvent.printf "There is a hard fault logged.\n",
              BootEvent.unlink HARDFAULT_PATH] ∧
          (stm32_bbsram_int S st).world.st = (unlink_outcome S st).2 ∧
          (stm32_bbsram_int S st).rv = (unlink_outcome S st).1) := by
  rcases bbsram_int_cases S st with h | ⟨ho, hq⟩ | ⟨ho, hq⟩
  · obtain ⟨_, _, htr⟩ := bbsram_int_of_open_failed S st h
    rw [htr]
    refine ⟨?_, ?_, ?_, ?_, ?_, ?_⟩
    · simp
      omega
    · simp
      omega
    · intro ho
      omega
    · simp
    · simp
    · intro ho
      omega
  · obtain ⟨_, hst, htr⟩ := bbsram_int_of_getdesc_failed S st ho hq
    rw [htr]
    refine ⟨?_, ?_, ?_, ?_, ?_, ?_⟩
    · simp
      omega
    · simp
      omega
    · intro _ _
      exact ⟨by simp, hst⟩
    · simp
    · simp
    · intro _ hq2
      omega
  · obtain ⟨hrv, hst, htr⟩ := bbsram_int_of_record_found S st ho hq
    rw [World.actions, htr]
    refine ⟨?_, ?_, ?_, ?_, ?_, ?_⟩
    · simp [ho, hq]
    · simp [ho, hq]
    · intro _ hq2
      omega
    · split_ifs <;> simp
    · intro path
      split_ifs <;> simp
    · intro _ _
      refine ⟨?_, hst, hrv⟩
      split_ifs <;> simp [BootEvent.is_diagnostic]

/-! ## One-shot consumption -/

section capture
variable (cfg : BoardConfig) (env : CrashEnv) (g : fullcontext_t) (currentsp : Nat)
  (rtcb : tcb_s) (filename : Option (List Nat)) (lineno : Int)

theorem crashdump_name :
    (board_crashdump cfg env g currentsp rtcb filename lineno).g_sdata.info.name =
      strncpy (List.replicate (cfg.CONFIG_TASK_NAME_SIZE + 1) 0) rtcb.name
        cfg.CONFIG_TASK_NAME_SIZE := by
  simp only [board_crashdump, save_ustack_fields, save_istack_fields, save_stack_limits_fields,
    save_stack_pointers_fields, save_context_fields, save_info_fields, memset_zero_fields]

theorem crashdump_scalars :
    (board_crashdump cfg env g currentsp rtcb filename lineno).g_sdata.info.pid = rtcb.pid ∧
      (board_crashdump cfg env g currentsp rtcb filename lineno).g_sdata.info.lineno = lineno ∧
      (board_crashdump cfg env g currentsp rtcb filename lineno).g_sdata.info.current_regs =
        u32 env.CURRENT_REGS := by
  simp only [board_crashdump, save_ustack_fields, save_istack_fields, save_stack_limits_fields,
    save_stack_pointers_fields, save_context_fields, save_info_fields, memset_zero_fields,
    and_self]

/-- The flags of a snapshot: the PRESENT flags of the context, and each INVALID flag or
nothing. -/
theorem crashdump_flags_shape :
    ∃ a b : Nat, (a = 0 ∨ a = INVALID_INTSTACK_PTR) ∧
      (b = 0 ∨ b = INVALID_USERSTACK_PTR) ∧
      (board_crashdump cfg env g currentsp rtcb filename lineno).g_sdata.info.flags =
        ((if u32 env.CURRENT_REGS ≠ 0
            then REGS_PRESENT ||| USERSTACK_PRESENT ||| INTSTACK_PRESENT
            else USERSTACK_PRESENT) ||| a) ||| b := by
  rw [crashdump_flags]
  refine ⟨_, _, ?_, ?_, rfl⟩ <;> split_ifs <;> simp

/-- A capture does not read the content the static buffer had on entry. -/
theorem crashdump_prior_irrelevant (g2 : fullcontext_t) :
    board_crashdump cfg env g currentsp rtcb filename lineno =
      board_crashdump cfg env g2 currentsp rtcb filename lineno := by
  have h : memset_zero cfg g = memset_zero cfg g2 := rfl
  unfold board_crashdump
  rw [h]

end capture

theorem in_bounds_of_top_lt_size (s : _stack_t) (htop : s.top < 2 ^ 32)
    (hsize : s.size < 2 ^ 32) (h : s.top < s.size) : in_bounds s = false := by
  have hsub : s.top < sub32 s.top s.size := by
    unfold sub32 u32
    rw [Nat.mod_eq_of_lt htop, Nat.mod_eq_of_lt hsize]
    omega
  cases hb : in_bounds s
  · rfl
  · rw [in_bounds_iff] at hb
    omega

/-! ## Claims on what a snapshot holds -/

/-- C11. For every capture in which no interrupt register save area is active, and for
every prior content of the static snapshot buffer, every word of the register block of
the snapshot is zero, every word of the interrupt stack window is zero and the recorded
interrupt stack pointer is zero; neither REGS_PRESENT nor INTSTACK_PRESENT is set. -/
theorem C11_uncaptured_groups_zero (cfg : BoardConfig) (env : CrashEnv) (g : fullcontext_t)
    (currentsp : Nat) (rtcb : tcb_s) (filename : Option (List Nat)) (lineno : Int)
    (hregs : u32 env.CURRENT_REGS = 0) :
    (board_crashdump cfg env g currentsp rtcb filename lineno).g_sdata.info.regs =
        List.replicate cfg.XCPTCONTEXT_REGS 0 ∧
      (∀ w ∈ (board_crashdump cfg env g currentsp rtcb filename lineno).g_sdata.info.regs,
        w = 0) ∧
      (board_crashdump cfg env g currentsp rtcb filename lineno).g_sdata.istack =
        List.replicate CONFIG_USTACK_SIZE 0 ∧
      (∀ w ∈ (board_crashdump cfg env g currentsp rtcb filename lineno).g_sdata.istack,
        w = 0) ∧
      (board_crashdump cfg env g currentsp rtcb filename
        lineno).g_sdata.info.stacks_.interrupt.sp = 0 ∧
      ¬ flag_set (board_crashdump cfg env g currentsp rtcb filename lineno).g_sdata.info.flags
        REGS_PRESENT ∧
      ¬ flag_set (board_crashdump cfg env g currentsp rtcb filename lineno).g_sdata.info.flags
        INTSTACK_PRESENT := by
  have hr : (board_crashdump cfg env g currentsp rtcb filename lineno).g_sdata.info.regs =
      List.replicate cfg.XCPTCONTEXT_REGS 0 := by
    rw [crashdump_regs]
    simp [hregs]
  have hi : (board_crashdump cfg env g currentsp rtcb filename lineno).g_sdata.istack =
      List.replicate CONFIG_USTACK_SIZE 0 := by
    rw [crashdump_istack]
    simp [hregs]
  have hsp : (board_crashdump cfg env g currentsp rtcb filename
      lineno).g_sdata.info.stacks_.interrupt.sp = 0 := by
    rw [crashdump_interrupt]
    simp [hregs]
  obtain ⟨a, b, ha, hb, hf⟩ := crashdump_flags_shape cfg env g currentsp rtcb filename lineno
  have hc : ¬ (u32 env.CURRENT_REGS ≠ 0) := fun h => h hregs
  rw [if_neg hc] at hf
  refine ⟨hr, ?_, hi, ?_, hsp, ?_, ?_⟩
  · intro w hw
    rw [hr] at hw
    exact (List.mem_replicate.mp hw).2
  · intro w hw
    rw [hi] at hw
    exact (List.mem_replicate.mp hw).2
  · rw [hf]
    rcases ha with rfl | rfl <;> rcases hb with rfl | rfl <;> decide
  · rw [hf]
    rcases ha with rfl | rfl <;> rcases hb with rfl | rfl <;> decide

/-- C11 at a capture in task context over a buffer that held a previous snapshot. -/
theorem C11_uncaptured_groups_zero_witness :
    (board_crashdump exampleConfig taskEnv staleBuffer 0x20000180 task5 none
        12).g_sdata.info.regs = List.replicate exampleConfig.XCPTCONTEXT_REGS 0 :=
  (C11_uncaptured_groups_zero exampleConfig taskEnv staleBuffer 0x20000180 task5 none 12
    (by decide)).1

/-- C12. The record a capture builds and hands to the save operation is a function of the
capture inputs only: for any two prior contents of the static snapshot buffer and
otherwise equal inputs the two captures are identical, in the record, in the result of the
save and in what is written out.  With a null file name the file name field is all NUL
bytes; the task name field holds the task name cut at `CONFIG_TASK_NAME_SIZE` bytes, then
NUL bytes up to its end, whatever follows the first NUL in the task handle. -/
theorem C12_no_residue (cfg : BoardConfig) (env : CrashEnv) (g1 g2 : fullcontext_t)
    (currentsp : Nat) (rtcb : tcb_s) (filename : Option (List Nat)) (lineno : Int) :
    board_crashdump cfg env g1 currentsp rtcb filename lineno =
        board_crashdump cfg env g2 currentsp rtcb filename lineno ∧
      (board_crashdump cfg env g1 currentsp rtcb filename lineno).rv =
        env.stm32_bbsram_savepanic HARDFAULT_FILENO
          (board_crashdump cfg env g2 currentsp rtcb filename lineno).g_sdata ∧
      (board_crashdump cfg env g1 currentsp rtcb none lineno).g_sdata.info.filename =
        List.replicate MAX_FILE_PATH_LENGTH 0 ∧
      (board_crashdump cfg env g1 currentsp rtcb filename lineno).g_sdata.info.name =
        (cstr rtcb.name).take cfg.CONFIG_TASK_NAME_SIZE ++
          List.replicate
            (cfg.CONFIG_TASK_NAME_SIZE + 1 -
              ((cstr rtcb.name).take cfg.CONFIG_TASK_NAME_SIZE).length) 0 := by
  have h := crashdump_prior_irrelevant cfg env g1 currentsp rtcb filename lineno g2
  refine ⟨h, ?_, ?_, ?_⟩
  · rw [← h]
    rfl
  · rw [crashdump_filename]
  · rw [crashdump_name]
    unfold strncpy
    have hl : ((cstr rtcb.name).take cfg.CONFIG_TASK_NAME_SIZE).length ≤
        cfg.CONFIG_TASK_NAME_SIZE := by
      rw [List.length_take]
      exact Nat.min_le_left _ _
    have hd : (List.replicate (cfg.CONFIG_TASK_NAME_SIZE + 1) 0).drop cfg.CONFIG_TASK_NAME_SIZE =
        List.replicate 1 0 := by
      simp
    have hn : cfg.CONFIG_TASK_NAME_SIZE + 1 -
          ((cstr rtcb.name).take cfg.CONFIG_TASK_NAME_SIZE).length =
        (cfg.CONFIG_TASK_NAME_SIZE -
          ((cstr rtcb.name).take cfg.CONFIG_TASK_NAME_SIZE).length) + 1 := by
      omega
    simp only []
    rw [hd, hn, List.replicate_add, List.append_assoc]

/-- C14. For every capture: when the task id is 0, the idle task, the recorded top and size
of the user stack are the idle-stack top of the board, `g_idle_topstack - 4`, and its
idle-stack size `CONFIG_IDLETHREAD_STACKSIZE`, whatever the stack fields of the task
handle; when the task id is not 0 they are `adj_stack_ptr` and `adj_stack_size` of the
task handle, truncated to 32 bits.  The recorded top and size of the interrupt stack are
the board constants `&g_intstackbase` and `CONFIG_ARCH_INTERRUPTSTACK & ~3` for every
task. -/
theorem C14_declared_bounds (cfg : BoardConfig) (env : CrashEnv) (g : fullcontext_t)
    (currentsp : Nat) (rtcb : tcb_s) (filename : Option (List Nat)) (lineno : Int) :
    (rtcb.pid = 0 →
        (board_crashdump cfg env g currentsp rtcb filename lineno).g_sdata.info.stacks_.user.top =
            sub32 cfg.g_idle_topstack 4 ∧
          (board_crashdump cfg env g currentsp rtcb filename
              lineno).g_sdata.info.stacks_.user.size = u32 cfg.CONFIG_IDLETHREAD_STACKSIZE ∧
          ∀ top size : Nat,
            (board_crashdump cfg env g currentsp
                { rtcb with adj_stack_ptr := top, adj_stack_size := size } filename
                lineno).g_sdata.info.stacks_.user =
              (board_crashdump cfg env g currentsp rtcb filename
                lineno).g_sdata.info.stacks_.user) ∧
      (rtcb.pid ≠ 0 →
        (board_crashdump cfg env g currentsp rtcb filename lineno).g_sdata.info.stacks_.user.top =
            rtcb.adj_stack_ptr % 2 ^ 32 ∧
          (board_crashdump cfg env g currentsp rtcb filename
              lineno).g_sdata.info.stacks_.user.size = rtcb.adj_stack_size % 2 ^ 32) ∧
      (∀ rtcb2 : tcb_s,
        (board_crashdump cfg env g currentsp rtcb2 filename
            lineno).g_sdata.info.stacks_.interrupt.top = u32 cfg.g_intstackbase ∧
          (board_crashdump cfg env g currentsp rtcb2 filename
            lineno).g_sdata.info.stacks_.interrupt.size =
            u32 (cfg.CONFIG_ARCH_INTERRUPTSTACK &&& 0xFFFFFFFC)) := by
  refine ⟨?_, ?_, ?_⟩
  · intro hpid
    refine ⟨?_, ?_, ?_⟩
    · rw [crashdump_user]
      simp only [if_pos hpid]
    · rw [crashdump_user]
      simp only [if_pos hpid]
    · intro top size
      rw [crashdump_user, crashdump_user]
      simp only [if_pos hpid]
  · intro hpid
    refine ⟨?_, ?_⟩
    · rw [crashdump_user]
      simp only [if_neg hpid]
      rfl
    · rw [crashdump_user]
      simp only [if_neg hpid]
      rfl
  · intro rtcb2
    rw [crashdump_interrupt]
    exact ⟨rfl, rfl⟩

/-- C14 at the idle task: the recorded limits are those of the idle stack of the board and
not the stack fields of the task handle. -/
theorem C14_declared_bounds_witness :
    (board_crashdump exampleConfig taskEnv staleBuffer 0x2000FF00 idleTask none
        12).g_sdata.info.stacks_.user.top = sub32 exampleConfig.g_idle_topstack 4 :=
  ((C14_declared_bounds exampleConfig taskEnv staleBuffer 0x2000FF00 idleTask none 12).1
    (by decide)).1

/-- C15. For every capture and each stack kind whose recorded limits have `size > top` as
unsigned 32-bit words, so that `top - size` wraps modulo `2^32`, the INVALID flag of the
kind is set; with these limits the test accepts no pointer value `sp` at all, also none
with `sp <= top`, which satisfies `top - size < sp <= top` over the integers. -/
theorem C15_wrapped_bounds_always_invalid (cfg : BoardConfig) (env : CrashEnv)
    (g : fullcontext_t) (currentsp : Nat) (rtcb : tcb_s) (filename : Option (List Nat))
    (lineno : Int) (k : StackKind)
    (h : (k.recorded (board_crashdump cfg env g currentsp rtcb filename lineno).g_sdata).top <
      (k.recorded (board_crashdump cfg env g currentsp rtcb filename lineno).g_sdata).size) :
    flag_set (board_crashdump cfg env g currentsp rtcb filename lineno).g_sdata.info.flags
        k.INVALID_PTR ∧
      ∀ sp : Nat,
        in_bounds
            { sp := sp
              top :=
                (k.recorded (board_crashdump cfg env g currentsp rtcb filename
                  lineno).g_sdata).top
              size :=
                (k.recorded (board_crashdump cfg env g currentsp rtcb filename
                  lineno).g_sdata).size } = false := by
  obtain ⟨_, htop, hsize⟩ := crashdump_recorded_lt cfg env g currentsp rtcb filename lineno k
  refine ⟨?_, ?_⟩
  · rw [crashdump_invalid_flag]
    exact in_bounds_of_top_lt_size _ htop hsize h
  · intro sp
    exact in_bounds_of_top_lt_size _ htop hsize h

/-- C15 at a task with `top = 0x100` and `size = 0x200` and `sp = 0x80`: the pointer
satisfies `top - size < sp <= top` over the integers and is flagged. -/
theorem C15_wrapped_bounds_always_invalid_witness :
    (board_crashdump exampleConfig taskEnv staleBuffer 0x80 wrapTask none
        12).g_sdata.info.stacks_.user = ⟨0x80, 0x100, 0x200⟩ ∧
      flag_set (board_crashdump exampleConfig taskEnv staleBuffer 0x80 wrapTask none
        12).g_sdata.info.flags INVALID_USERSTACK_PTR :=
  ⟨by decide,
    (C15_wrapped_bounds_always_invalid exampleConfig taskEnv staleBuffer 0x80 wrapTask none 12
      StackKind.user (by decide)).1⟩

/-- A flags word inside the mask of the five flags has its bits among theirs. -/
theorem testBit_of_flags_mask (f : Nat)
    (h : f &&& (REGS_PRESENT ||| USERSTACK_PRESENT ||| INTSTACK_PRESENT |||
      INVALID_USERSTACK_PTR ||| INVALID_INTSTACK_PTR) = f)
    (i : Nat) (hi : f.testBit i = true) : i = 0 ∨ i = 1 ∨ i = 2 ∨ i = 5 ∨ i = 6 := by
  have h2 : f &&& 0x67 = f := h
  rw [← h2, Nat.testBit_and, Bool.and_eq_true] at hi
  have h67 := hi.2
  by_cases hlt : i < 7
  · interval_cases i
    · simp
    · simp
    · simp
    · exact absurd h67 (by decide)
    · exact absurd h67 (by decide)
    · simp
    · simp
  · have hpow : (0x67 : Nat) < 2 ^ i :=
      lt_of_lt_of_le (by norm_num) (Nat.pow_le_pow_right (by norm_num) (not_lt.mp hlt))
    rw [Nat.testBit_lt_two_pow hpow] at h67
    exact absurd h67 (by simp)

/-- C16. For every capture, whatever the inputs: USERSTACK_PRESENT is set; REGS_PRESENT is
set if and only if INTSTACK_PRESENT is set, if and only if an interrupt register save area
was active at the capture; and the flags word has no bit outside REGS_PRESENT,
USERSTACK_PRESENT, INTSTACK_PRESENT, INVALID_USERSTACK_PTR and INVALID_INTSTACK_PTR. -/
theorem C16_flag_set_invariant (cfg : BoardConfig) (env : CrashEnv) (g : fullcontext_t)
    (currentsp : Nat) (rtcb : tcb_s) (filename : Option (List Nat)) (lineno : Int) :
    flag_set (board_crashdump cfg env g currentsp rtcb filename lineno).g_sdata.info.flags
        USERSTACK_PRESENT ∧
      (flag_set (board_crashdump cfg env g currentsp rtcb filename lineno).g_sdata.info.flags
          REGS_PRESENT ↔
        flag_set (board_crashdump cfg env g currentsp rtcb filename lineno).g_sdata.info.flags
          INTSTACK_PRESENT) ∧
      (flag_set (board_crashdump cfg env g currentsp rtcb filename lineno).g_sdata.info.flags
          INTSTACK_PRESENT ↔ u32 env.CURRENT_REGS ≠ 0) ∧
      (board_crashdump cfg env g currentsp rtcb filename lineno).g_sdata.info.flags &&&
          (REGS_PRESENT ||| USERSTACK_PRESENT ||| INTSTACK_PRESENT ||| INVALID_USERSTACK_PTR |||
            INVALID_INTSTACK_PTR) =
        (board_crashdump cfg env g currentsp rtcb filename lineno).g_sdata.info.flags ∧
      (∀ i : Nat,
        (board_crashdump cfg env g currentsp rtcb filename lineno).g_sdata.info.flags.testBit i
          = true → i = 0 ∨ i = 1 ∨ i = 2 ∨ i = 5 ∨ i = 6) := by
  obtain ⟨a, b, ha, hb, hf⟩ := crashdump_flags_shape cfg env g currentsp rtcb filename lineno
  rw [hf]
  by_cases hc : u32 env.CURRENT_REGS ≠ 0
  · rw [if_pos hc]
    refine ⟨?_, ?_, ?_, ?_, ?_⟩
    · rcases ha with rfl | rfl <;> rcases hb with rfl | rfl <;> decide
    · rcases ha with rfl | rfl <;> rcases hb with rfl | rfl <;> decide
    · have : flag_set
          (REGS_PRESENT ||| USERSTACK_PRESENT ||| INTSTACK_PRESENT ||| a ||| b)
          INTSTACK_PRESENT := by
        rcases ha with rfl | rfl <;> rcases hb with rfl | rfl <;> decide
      exact ⟨fun _ => hc, fun _ => this⟩
    · rcases ha with rfl | rfl <;> rcases hb with rfl | rfl <;> decide
    · refine fun i hi => testBit_of_flags_mask _ ?_ i hi
      rcases ha with rfl | rfl <;> rcases hb with rfl | rfl <;> decide
  · rw [if_neg hc]
    refine ⟨?_, ?_, ?_, ?_, ?_⟩
    · rcases ha with rfl | rfl <;> rcases hb with rfl | rfl <;> decide
    · rcases ha with rfl | rfl <;> rcases hb with rfl | rfl <;> decide
    · have : ¬ flag_set (USERSTACK_PRESENT ||| a ||| b) INTSTACK_PRESENT := by
        rcases ha with rfl | rfl <;> rcases hb with rfl | rfl <;> decide
      exact ⟨fun h => absurd h this, fun h => absurd h hc⟩
    · rcases ha with rfl | rfl <;> rcases hb with rfl | rfl <;> decide
    · refine fun i hi => testBit_of_flags_mask _ ?_ i hi
      rcases ha with rfl | rfl <;> rcases hb with rfl | rfl <;> decide

/-! ## The capture with a memory that holds the static buffer -/

section live_copy
variable (read : fullcontext_t → Nat → Nat) (window : fullcontext_t → List Nat)
  (set_window : fullcontext_t → List Nat → fullcontext_t)

/-- What an assignment to the window leaves alone, the copy leaves alone. -/
theorem copy_reverse_live_preserved {α : Type} (f : fullcontext_t → α)
    (hf : ∀ (p : fullcontext_t) (v : List Nat), f (set_window p v) = f p) :
    ∀ (size : Nat) (p : fullcontext_t) (dest src : Nat),
      f (copy_reverse_live read window set_window p dest src size) = f p := by
  intro size
  induction size with
  | zero => intro p dest src; rfl
  | succ n ih =>
    intro p dest src
    rw [copy_reverse_live, ih, hf]

theorem copy_reverse_live_length
    (hw : ∀ (p : fullcontext_t) (v : List Nat), window (set_window p v) = v) :
    ∀ (size : Nat) (p : fullcontext_t) (dest src : Nat),
      (window (copy_reverse_live read window set_window p dest src size)).length =
        (window p).length := by
  intro size
  induction size with
  | zero => intro p dest src; rfl
  | succ n ih =>
    intro p dest src
    rw [copy_reverse_live, ih, hw, List.length_set]

/-- The copy does not write below the index it starts at. -/
theorem copy_reverse_live_below
    (hw : ∀ (p : fullcontext_t) (v : List Nat), window (set_window p v) = v) :
    ∀ (size : Nat) (p : fullcontext_t) (dest src j : Nat), j < dest →
      (window (copy_reverse_live read window set_window p dest src size))[j]? =
        (window p)[j]? := by
  intro size
  induction size with
  | zero => intro p dest src j _; rfl
  | succ n ih =>
    intro p dest src j hj
    rw [copy_reverse_live, ih _ _ _ _ (by omega), hw, List.getElem?_set_ne (by omega)]

/-- Word `dest + j` of the window after the copy is the word read at `&ps[k - j]` from the
memory as the first `j` words copied have left it. -/
theorem copy_reverse_live_getElem?
    (hw : ∀ (p : fullcontext_t) (v : List Nat), window (set_window p v) = v) (ps : Nat) :
    ∀ (size : Nat) (p : fullcontext_t) (dest : Nat) (k : Int) (j : Nat),
      j < size → dest + size ≤ (window p).length →
      (window (copy_reverse_live read window set_window p dest (ptr_index ps k) size))[dest + j]? =
        some (deref
          (read (copy_reverse_live read window set_window p dest (ptr_index ps k) j))
          (ptr_index ps (k - (j : Int)))) := by
  intro size
  induction size with
  | zero => intro p dest k j hj _; omega
  | succ n ih =>
    intro p dest k j hj hlen
    have step : ∀ m : Nat,
        copy_reverse_live read window set_window p dest (ptr_index ps k) (m + 1) =
          copy_reverse_live read window set_window
            (set_window p ((window p).set dest (deref (read p) (ptr_index ps k))))
            (dest + 1) (ptr_index ps (k - 1)) m := by
      intro m
      rw [← ptr_dec_ptr_index]
      rfl
    cases j with
    | zero =>
      have h0 : copy_reverse_live read window set_window p dest (ptr_index ps k) 0 = p := rfl
      rw [step, h0]
      change (window _)[dest]? = _
      rw [copy_reverse_live_below read window set_window hw _ _ _ _ _ (Nat.lt_succ_self dest),
        hw, List.getElem?_set_self (by omega)]
      simp
    | succ j =>
      have hidx : dest + (j + 1) = (dest + 1) + j := by omega
      rw [step n, step j, hidx, ih _ _ _ _ (by omega) (by rw [hw, List.length_set]; omega)]
      congr 3
      push_cast
      omega

end live_copy

section live_capture
variable (cfg : BoardConfig) (env : LiveEnv) (g : fullcontext_t) (currentsp : Nat)
  (rtcb : tcb_s) (filename : Option (List Nat)) (lineno : Int)

theorem set_flags_stacks (q : fullcontext_t) (v : Nat) :
    (q.set_flags v).info.stacks_ = q.info.stacks_ := rfl

theorem save_stack_pointers_live_fields (p : fullcontext_t) :
    (save_stack_pointers_live cfg env p currentsp).info.flags =
        (p.info.flags ||| (if u32 env.CURRENT_REGS ≠ 0
          then REGS_PRESENT ||| USERSTACK_PRESENT ||| INTSTACK_PRESENT
          else USERSTACK_PRESENT)) ∧
      (save_stack_pointers_live cfg env p currentsp).info.pid = p.info.pid ∧
      (save_stack_pointers_live cfg env p currentsp).info.stacks_.user.top =
        p.info.stacks_.user.top ∧
      (save_stack_pointers_live cfg env p currentsp).info.stacks_.user.size =
        p.info.stacks_.user.size ∧
      (save_stack_pointers_live cfg env p currentsp).ustack = p.ustack := by
  unfold save_stack_pointers_live
  split_ifs <;> simp

theorem save_istack_live_fields (p : fullcontext_t) :
    (save_istack_live env p).info.flags =
        (p.info.flags |||
          (if in_bounds p.info.stacks_.interrupt then 0 else INVALID_INTSTACK_PTR)) ∧
      (save_istack_live env p).info.stacks_ = p.info.stacks_ ∧
      (save_istack_live env p).ustack = p.ustack := by
  have hinfo : ∀ (q : fullcontext_t) (d s n : Nat),
      (copy_reverse_live env.read fullcontext_t.istack fullcontext_t.set_istack q d s n).info =
        q.info :=
    fun q d s n => copy_reverse_live_preserved env.read fullcontext_t.istack
      fullcontext_t.set_istack fullcontext_t.info (fun _ _ => rfl) n q d s
  have hust : ∀ (q : fullcontext_t) (d s n : Nat),
      (copy_reverse_live env.read fullcontext_t.istack fullcontext_t.set_istack q d s n).ustack =
        q.ustack :=
    fun q d s n => copy_reverse_live_preserved env.read fullcontext_t.istack
      fullcontext_t.set_istack fullcontext_t.ustack (fun _ _ => rfl) n q d s
  unfold save_istack_live
  by_cases h1 : p.info.flags &&& INTSTACK_PRESENT ≠ 0 <;>
  by_cases h2 : in_bounds p.info.stacks_.interrupt = true <;>
  simp [h1, h2, hinfo, hust, set_flags_stacks]

theorem copy_ustack_live_info (p : fullcontext_t) :
    (copy_ustack_live env p).info = p.info := by
  unfold copy_ustack_live
  split_ifs
  · exact copy_reverse_live_preserved env.read fullcontext_t.ustack fullcontext_t.set_ustack
      fullcontext_t.info (fun _ _ => rfl) _ _ _ _
  · rfl

theorem save_ustack_live_fields (p : fullcontext_t) :
    (save_ustack_live env p).info.stacks_ = p.info.stacks_ ∧
      (save_ustack_live env p).ustack = (copy_ustack_live env p).ustack ∧
      (save_ustack_live env p).info.flags =
        (p.info.flags |||
          (if in_bounds p.info.stacks_.user then 0 else INVALID_USERSTACK_PTR)) := by
  unfold save_ustack_live
  by_cases h2 : in_bounds p.info.stacks_.user = true <;>
  simp [h2, copy_ustack_live_info, set_flags_stacks]

/-- The record when the copy of the user stack data starts: its flags, its user stack
pointer and its user stack window. -/
theorem before_ustack_copy_fields :
    flag_set (before_ustack_copy cfg env g currentsp rtcb filename lineno).info.flags
        USERSTACK_PRESENT ∧
      (before_ustack_copy cfg env g currentsp rtcb filename lineno).info.stacks_.user.sp =
        (save_stack_pointers_live cfg env
          (save_context cfg (env.seen (save_info (memset_zero cfg g) filename lineno))
            (save_info (memset_zero cfg g) filename lineno) rtcb)
          (u32 currentsp)).info.stacks_.user.sp ∧
      (before_ustack_copy cfg env g currentsp rtcb filename lineno).ustack =
        List.replicate CONFIG_ISTACK_SIZE 0 := by
  refine ⟨?_, ?_, ?_⟩
  · unfold flag_set
    simp only [before_ustack_copy, save_istack_live_fields, save_stack_limits_fields,
      save_stack_pointers_live_fields, save_context_fields, save_info_fields,
      memset_zero_fields, Nat.zero_or]
    split_ifs <;> decide
  · simp only [before_ustack_copy, save_istack_live_fields, save_stack_limits_fields]
  · simp only [before_ustack_copy, save_istack_live_fields, save_stack_limits_fields,
      save_stack_pointers_live_fields, save_context_fields, save_info_fields,
      memset_zero_fields]

theorem crashdump_live_user_sp :
    (board_crashdump_live cfg env g currentsp rtcb filename lineno).g_sdata.info.stacks_.user.sp =
      (before_ustack_copy cfg env g currentsp rtcb filename lineno).info.stacks_.user.sp := by
  simp only [board_crashdump_live, save_ustack_live_fields]

theorem crashdump_live_ustack :
    (board_crashdump_live cfg env g currentsp rtcb filename lineno).g_sdata.ustack =
      (at_ustack_word cfg env g currentsp rtcb filename lineno CONFIG_ISTACK_SIZE).ustack := by
  have h := (before_ustack_copy_fields cfg env g currentsp rtcb filename lineno).1
  unfold flag_set at h
  simp only [board_crashdump_live, save_ustack_live_fields, copy_ustack_live, if_pos h]
  rfl

theorem crashdump_live_ustack_length :
    (board_crashdump_live cfg env g currentsp rtcb filename lineno).g_sdata.ustack.length =
      CONFIG_ISTACK_SIZE := by
  rw [crashdump_live_ustack, at_ustack_word,
    copy_reverse_live_length env.read fullcontext_t.ustack fullcontext_t.set_ustack
      (fun _ _ => rfl),
    (before_ustack_copy_fields cfg env g currentsp rtcb filename lineno).2.2,
    List.length_replicate]

/-- Word `i` of the user stack window is the word read at `sp + 4 * (N/2 - i)` from the
memory as it is when that word is copied. -/
theorem crashdump_live_ustack_getElem? (i : Nat) (hi : i < CONFIG_ISTACK_SIZE) :
    (board_crashdump_live cfg env g currentsp rtcb filename lineno).g_sdata.ustack[i]? =
      some (deref (env.read (at_ustack_word cfg env g currentsp rtcb filename lineno i))
        (ptr_index
          (board_crashdump_live cfg env g currentsp rtcb filename
            lineno).g_sdata.info.stacks_.user.sp
          (((CONFIG_ISTACK_SIZE / 2 : Nat) : Int) - (i : Int)))) := by
  have h := copy_reverse_live_getElem? env.read fullcontext_t.ustack fullcontext_t.set_ustack
    (fun _ _ => rfl)
    (before_ustack_copy cfg env g currentsp rtcb filename lineno).info.stacks_.user.sp
    CONFIG_ISTACK_SIZE (before_ustack_copy cfg env g currentsp rtcb filename lineno) 0
    ((CONFIG_ISTACK_SIZE / 2 : Nat) : Int) i hi
    (by rw [(before_ustack_copy_fields cfg env g currentsp rtcb filename lineno).2.2]; simp)
  rw [Nat.zero_add] at h
  rw [crashdump_live_ustack, crashdump_live_user_sp]
  exact h

end live_capture

/-! ### A memory apart from the static buffer -/

theorem copy_reverse_live_apart (mem : Nat → Nat) (window : fullcontext_t → List Nat)
    (set_window : fullcontext_t → List Nat → fullcontext_t)
    (hw : ∀ (p : fullcontext_t) (v : List Nat), window (set_window p v) = v)
    (hss : ∀ (p : fullcontext_t) (v w : List Nat), set_window (set_window p v) w = set_window p w)
    (hsw : ∀ p : fullcontext_t, set_window p (window p) = p) :
    ∀ (size : Nat) (p : fullcontext_t) (dest src : Nat),
      copy_reverse_live (fun _ => mem) window set_window p dest src size =
        set_window p (copy_reverse mem (window p) dest src size) := by
  intro size
  induction size with
  | zero =>
    intro p dest src
    rw [copy_reverse_live, copy_reverse, hsw]
  | succ n ih =>
    intro p dest src
    rw [copy_reverse_live, copy_reverse, ih, hw, hss]

theorem save_istack_live_apart (env : CrashEnv) (p : fullcontext_t) :
    save_istack_live env.apart p = save_istack env p := by
  unfold save_istack_live save_istack
  have h : ∀ (d s n : Nat),
      copy_reverse_live env.apart.read fullcontext_t.istack fullcontext_t.set_istack p d s n =
        p.set_istack (copy_reverse env.mem p.istack d s n) :=
    fun d s n => copy_reverse_live_apart env.mem fullcontext_t.istack fullcontext_t.set_istack
      (fun _ _ => rfl) (fun _ _ _ => rfl) (fun _ => rfl) n p d s
  simp only [h]

theorem save_ustack_live_apart (env : CrashEnv) (p : fullcontext_t) :
    save_ustack_live env.apart p = save_ustack env p := by
  unfold save_ustack_live copy_ustack_live save_ustack
  have h : ∀ (d s n : Nat),
      copy_reverse_live env.apart.read fullcontext_t.ustack fullcontext_t.set_ustack p d s n =
        p.set_ustack (copy_reverse env.mem p.ustack d s n) :=
    fun d s n => copy_reverse_live_apart env.mem fullcontext_t.ustack fullcontext_t.set_ustack
      (fun _ _ => rfl) (fun _ _ _ => rfl) (fun _ => rfl) n p d s
  simp only [h]

/-- With a memory apart from the static buffer the capture is `board_crashdump`. -/
theorem board_crashdump_live_apart (cfg : BoardConfig) (env : CrashEnv) (g : fullcontext_t)
    (currentsp : Nat) (rtcb : tcb_s) (filename : Option (List Nat)) (lineno : Int) :
    board_crashdump_live cfg env.apart g currentsp rtcb filename lineno =
      board_crashdump cfg env g currentsp rtcb filename lineno := by
  have hc : ∀ (q p : fullcontext_t),
      save_context cfg (env.apart.seen q) p rtcb = save_context cfg env p rtcb :=
    fun _ _ => rfl
  have hp : ∀ (p : fullcontext_t) (sp : Nat),
      save_stack_pointers_live cfg env.apart p sp = save_stack_pointers cfg env p sp :=
    fun _ _ => rfl
  unfold board_crashdump_live before_ustack_copy board_crashdump
  simp only [hc, hp, save_istack_live_apart, save_ustack_live_apart]
  rfl

theorem at_ustack_word_info (cfg : BoardConfig) (env : LiveEnv) (g : fullcontext_t)
    (currentsp : Nat) (rtcb : tcb_s) (filename : Option (List Nat)) (lineno : Int) (i : Nat) :
    (at_ustack_word cfg env g currentsp rtcb filename lineno i).info =
      (before_ustack_copy cfg env g currentsp rtcb filename lineno).info :=
  copy_reverse_live_preserved env.read fullcontext_t.ustack fullcontext_t.set_ustack
    fullcontext_t.info (fun _ _ => rfl) _ _ _ _

/-- A read at an address whose word does not depend on the record. -/
theorem deref_read_congr (read : fullcontext_t → Nat → Nat) (ps : Nat) (k : Int)
    (p q : fullcontext_t) (h : read p (ptr_index ps k) = read q (ptr_index ps k)) :
    deref (read p) (ptr_index ps k) = deref (read q) (ptr_index ps k) := by
  unfold deref
  rw [u32_of_lt (ptr_index_lt ps k), h]

/-- In the examples that read the static buffer, the word at the address of
`g_sdata.info.stacks.user.top` is the recorded top and the word above it the recorded
size. -/
theorem overlapEnv_read_top (p : fullcontext_t) :
    deref (overlapEnv.read p) exampleTopAddress = u32 p.info.stacks_.user.top ∧
      deref (overlapEnv.read p) (exampleTopAddress + 4) = u32 p.info.stacks_.user.size :=
  ⟨rfl, rfl⟩

/-! ## The claim on the extraction and the validity of the pointer -/

/-- C13, as amended. For every capture, every memory content and every recorded user stack
pointer `sp`, inside the declared limits or not, the user stack window is filled by one
rule: for every `0 <= i < N` (`N = 800`) the word of index `i` is the 32-bit word read at
address `sp + 4 * (N/2 - i)` modulo `2^32` when that word is copied.  When the words at
these `N` addresses do not depend on the content of the static buffer, that is when the
window does not overlap `g_sdata`, the window holds the words of the memory at these
addresses; it is the same in any two captures with the same memory and the same recorded
`sp`, whatever their declared `top` and `size` and whether or not INVALID_USERSTACK_PTR is
set; and replacing the stack fields of the task handle leaves it unchanged. -/
theorem C13_extraction_outside_buffer (cfg : BoardConfig) (env : LiveEnv) (g : fullcontext_t)
    (currentsp : Nat) (rtcb : tcb_s) (filename : Option (List Nat)) (lineno : Int) :
    (∀ i : Nat, i < 800 →
        (board_crashdump_live cfg env g currentsp rtcb filename lineno).g_sdata.ustack[i]? =
          some (deref (env.read (at_ustack_word cfg env g currentsp rtcb filename lineno i))
            (ptr_index
              (board_crashdump_live cfg env g currentsp rtcb filename
                lineno).g_sdata.info.stacks_.user.sp (400 - (i : Int))))) ∧
      ((∀ i : Nat, i < 800 → ∀ p q : fullcontext_t,
          env.read p (ptr_index
              (board_crashdump_live cfg env g currentsp rtcb filename
                lineno).g_sdata.info.stacks_.user.sp (400 - (i : Int))) =
            env.read q (ptr_index
              (board_crashdump_live cfg env g currentsp rtcb filename
                lineno).g_sdata.info.stacks_.user.sp (400 - (i : Int)))) →
        (∀ i : Nat, i < 800 → ∀ p : fullcontext_t,
          (board_crashdump_live cfg env g currentsp rtcb filename lineno).g_sdata.ustack[i]? =
            some (deref (env.read p)
              (ptr_index
                (board_crashdump_live cfg env g currentsp rtcb filename
                  lineno).g_sdata.info.stacks_.user.sp (400 - (i : Int))))) ∧
        (∀ (cfg2 : BoardConfig) (env2 : LiveEnv) (g2 : fullcontext_t) (currentsp2 : Nat)
            (rtcb2 : tcb_s) (filename2 : Option (List Nat)) (lineno2 : Int),
          env2.read = env.read →
          (board_crashdump_live cfg2 env2 g2 currentsp2 rtcb2 filename2
              lineno2).g_sdata.info.stacks_.user.sp =
            (board_crashdump_live cfg env g currentsp rtcb filename
              lineno).g_sdata.info.stacks_.user.sp →
          (board_crashdump_live cfg2 env2 g2 currentsp2 rtcb2 filename2
              lineno2).g_sdata.ustack =
            (board_crashdump_live cfg env g currentsp rtcb filename lineno).g_sdata.ustack) ∧
        (∀ top size : Nat,
          (board_crashdump_live cfg env g currentsp
              { rtcb with adj_stack_ptr := top, adj_stack_size := size } filename
              lineno).g_sdata.ustack =
            (board_crashdump_live cfg env g currentsp rtcb filename
              lineno).g_sdata.ustack)) := by
  have hrule : ∀ (cfg2 : BoardConfig) (env2 : LiveEnv) (g2 : fullcontext_t) (currentsp2 : Nat)
      (rtcb2 : tcb_s) (filename2 : Option (List Nat)) (lineno2 : Int) (i : Nat), i < 800 →
      (board_crashdump_live cfg2 env2 g2 currentsp2 rtcb2 filename2 lineno2).g_sdata.ustack[i]? =
        some (deref
          (env2.read (at_ustack_word cfg2 env2 g2 currentsp2 rtcb2 filename2 lineno2 i))
          (ptr_index
            (board_crashdump_live cfg2 env2 g2 currentsp2 rtcb2 filename2
              lineno2).g_sdata.info.stacks_.user.sp (400 - (i : Int)))) :=
    fun cfg2 env2 g2 currentsp2 rtcb2 filename2 lineno2 i hi =>
      crashdump_live_ustack_getElem? cfg2 env2 g2 currentsp2 rtcb2 filename2 lineno2 i hi
  refine ⟨hrule cfg env g currentsp rtcb filename lineno, ?_⟩
  intro hout
  have hsame : ∀ (cfg2 : BoardConfig) (env2 : LiveEnv) (g2 : fullcontext_t) (currentsp2 : Nat)
      (rtcb2 : tcb_s) (filename2 : Option (List Nat)) (lineno2 : Int),
      env2.read = env.read →
      (board_crashdump_live cfg2 env2 g2 currentsp2 rtcb2 filename2
          lineno2).g_sdata.info.stacks_.user.sp =
        (board_crashdump_live cfg env g currentsp rtcb filename
          lineno).g_sdata.info.stacks_.user.sp →
      (board_crashdump_live cfg2 env2 g2 currentsp2 rtcb2 filename2 lineno2).g_sdata.ustack =
        (board_crashdump_live cfg env g currentsp rtcb filename lineno).g_sdata.ustack := by
    intro cfg2 env2 g2 currentsp2 rtcb2 filename2 lineno2 hread hsp
    apply List.ext_getElem?
    intro i
    by_cases hi : i < 800
    · rw [hrule cfg2 env2 g2 currentsp2 rtcb2 filename2 lineno2 i hi,
        hrule cfg env g currentsp rtcb filename lineno i hi, hsp, hread]
      exact congrArg some (deref_read_congr env.read _ _ _ _ (hout i hi _ _))
    · rw [List.getElem?_eq_none (by
          rw [crashdump_live_ustack_length]
          exact not_lt.mp hi),
        List.getElem?_eq_none (by
          rw [crashdump_live_ustack_length]
          exact not_lt.mp hi)]
  refine ⟨?_, hsame, ?_⟩
  · intro i hi p
    rw [hrule cfg env g currentsp rtcb filename lineno i hi]
    exact congrArg some (deref_read_congr env.read _ _ _ _ (hout i hi _ _))
  · intro top size
    refine hsame cfg env g currentsp _ filename lineno rfl ?_
    rw [crashdump_live_user_sp, crashdump_live_user_sp,
      (before_ustack_copy_fields cfg env g currentsp _ filename lineno).2.1,
      (before_ustack_copy_fields cfg env g currentsp rtcb filename lineno).2.1]
    rfl

/-- C13 at a capture in interrupt context with the saved stack pointer register
`0x200000F0`, `top = 0x20000200` and `size = 0x100`, the memory read apart from the static
buffer: INVALID_USERSTACK_PTR is set and the window is filled by the rule. -/
theorem C13_extraction_outside_buffer_witness :
    (board_crashdump_live exampleConfig interruptEnvBelow.apart staleBuffer 0x2001FF00 task5
        none 12).g_sdata.info.stacks_.user = ⟨0x200000F0, 0x20000200, 0x100⟩ ∧
      flag_set (board_crashdump_live exampleConfig interruptEnvBelow.apart staleBuffer
        0x2001FF00 task5 none 12).g_sdata.info.flags INVALID_USERSTACK_PTR ∧
      ∀ i : Nat, i < 800 → ∀ p : fullcontext_t,
        (board_crashdump_live exampleConfig interruptEnvBelow.apart staleBuffer 0x2001FF00
            task5 none 12).g_sdata.ustack[i]? =
          some (deref (interruptEnvBelow.apart.read p)
            (ptr_index
              (board_crashdump_live exampleConfig interruptEnvBelow.apart staleBuffer
                0x2001FF00 task5 none 12).g_sdata.info.stacks_.user.sp (400 - (i : Int)))) := by
  refine ⟨?_, ?_, ((C13_extraction_outside_buffer exampleConfig interruptEnvBelow.apart
    staleBuffer 0x2001FF00 task5 none 12).2 (fun _ _ _ _ => rfl)).1⟩
  · rw [board_crashdump_live_apart]
    decide
  · rw [board_crashdump_live_apart]
    decide

/-- C13 as stated fails: with the static buffer at `0x20030000` in the memory read and
`sp = 0x20030058`, the address of `g_sdata.info.stacks.user.top`, two captures in task
context that differ only in the declared top and size of the task (`0x20000200` and
`0x100`, then `0x20000300` and `0x180`) record the same `sp` and fill different windows:
the word of index `N/2 = 400` is the declared top and the word of index 399 the declared
size, which the capture has written to the buffer before the copy. -/
theorem C13_counterexample :
    (board_crashdump_live exampleConfig overlapEnv staleBuffer exampleTopAddress task5 none
        12).g_sdata.info.stacks_.user = ⟨0x20030058, 0x20000200, 0x100⟩ ∧
      (board_crashdump_live exampleConfig overlapEnv staleBuffer exampleTopAddress task5Moved
        none 12).g_sdata.info.stacks_.user = ⟨0x20030058, 0x20000300, 0x180⟩ ∧
      (board_crashdump_live exampleConfig overlapEnv staleBuffer exampleTopAddress task5 none
        12).g_sdata.ustack[400]? = some 0x20000200 ∧
      (board_crashdump_live exampleConfig overlapEnv staleBuffer exampleTopAddress task5Moved
        none 12).g_sdata.ustack[400]? = some 0x20000300 ∧
      (board_crashdump_live exampleConfig overlapEnv staleBuffer exampleTopAddress task5 none
        12).g_sdata.ustack[399]? = some 0x100 ∧
      (board_crashdump_live exampleConfig overlapEnv staleBuffer exampleTopAddress task5Moved
        none 12).g_sdata.ustack[399]? = some 0x180 ∧
      (board_crashdump_live exampleConfig overlapEnv staleBuffer exampleTopAddress task5Moved
          none 12).g_sdata.ustack ≠
        (board_crashdump_live exampleConfig overlapEnv staleBuffer exampleTopAddress task5 none
          12).g_sdata.ustack := by
  have hB1 : (before_ustack_copy exampleConfig overlapEnv staleBuffer exampleTopAddress task5
      none 12).info.stacks_.user = ⟨0x20030058, 0x20000200, 0x100⟩ := by decide
  have hB2 : (before_ustack_copy exampleConfig overlapEnv staleBuffer exampleTopAddress
      task5Moved none 12).info.stacks_.user = ⟨0x20030058, 0x20000300, 0x180⟩ := by decide
  have hu1 : (board_crashdump_live exampleConfig overlapEnv staleBuffer exampleTopAddress task5
      none 12).g_sdata.info.stacks_.user = ⟨0x20030058, 0x20000200, 0x100⟩ := by
    simp only [board_crashdump_live, save_ustack_live_fields]
    exact hB1
  have hu2 : (board_crashdump_live exampleConfig overlapEnv staleBuffer exampleTopAddress
      task5Moved none 12).g_sdata.info.stacks_.user = ⟨0x20030058, 0x20000300, 0x180⟩ := by
    simp only [board_crashdump_live, save_ustack_live_fields]
    exact hB2
  have ha : ptr_index 0x20030058 (((CONFIG_ISTACK_SIZE / 2 : Nat) : Int) - ((400 : Nat) : Int))
      = exampleTopAddress := by decide
  have hb : ptr_index 0x20030058 (((CONFIG_ISTACK_SIZE / 2 : Nat) : Int) - ((399 : Nat) : Int))
      = exampleTopAddress + 4 := by decide
  have h1 := crashdump_live_ustack_getElem? exampleConfig overlapEnv staleBuffer
    exampleTopAddress task5 none 12 400 (by decide)
  have h2 := crashdump_live_ustack_getElem? exampleConfig overlapEnv staleBuffer
    exampleTopAddress task5Moved none 12 400 (by decide)
  have h3 := crashdump_live_ustack_getElem? exampleConfig overlapEnv staleBuffer
    exampleTopAddress task5 none 12 399 (by decide)
  have h4 := crashdump_live_ustack_getElem? exampleConfig overlapEnv staleBuffer
    exampleTopAddress task5Moved none 12 399 (by decide)
  rw [hu1, ha, (overlapEnv_read_top _).1, at_ustack_word_info, hB1] at h1
  rw [hu2, ha, (overlapEnv_read_top _).1, at_ustack_word_info, hB2] at h2
  rw [hu1, hb, (overlapEnv_read_top _).2, at_ustack_word_info, hB1] at h3
  rw [hu2, hb, (overlapEnv_read_top _).2, at_ustack_word_info, hB2] at h4
  refine ⟨hu1, hu2, h1, h2, h3, h4, ?_⟩
  intro h
  rw [h, h1] at h2
  exact absurd h2 (by decide)

end Bbsram
